import Mathlib

/-!
# Drone scene (`main.cpp`): scene state, input handler, resize handler, frame traversal

A shallow embedding of `src/main.cpp`.

* `GLfloat` values are exact rationals (`ℚ`); `GLuint` values are naturals reduced
  modulo `2 ^ 32` where the code can overflow; `int` values are integers.
* The file-scope globals form the structure `Scene`; every callback is a function
  on `Scene`.
* The model matrix stack of `display` is a list whose head is the top; `top` and
  `pop` on an empty stack have no defined result and return `none`.
-/

namespace Drone

/-! ## Scene state (the file-scope globals) -/

/-- The file-scope globals of `main.cpp` that the callbacks read or write
(lines 45-70).  Object handles and uniform locations are not state of the scene. -/
structure Scene where
  colourmode : Nat
  emitmode : Nat
  attenuationmode : Nat
  angle_x : ℚ
  angle_inc_x : ℚ
  x : ℚ
  model_scale : ℚ
  z : ℚ
  y : ℚ
  vx : ℚ
  vy : ℚ
  vz : ℚ
  angle_y : ℚ
  angle_inc_y : ℚ
  angle_z : ℚ
  angle_inc_z : ℚ
  drawmode : Nat
  speed : ℚ
  motorAngle : ℚ
  light_x : ℚ
  light_y : ℚ
  light_z : ℚ
  numLights : Int
  aspect_ratio : ℚ
deriving DecidableEq

/-- Globals before `init` runs: objects of static storage duration are
zero-initialised. -/
def Scene.zero : Scene :=
  { colourmode := 0, emitmode := 0, attenuationmode := 0, angle_x := 0, angle_inc_x := 0,
    x := 0, model_scale := 0, z := 0, y := 0, vx := 0, vy := 0, vz := 0, angle_y := 0,
    angle_inc_y := 0, angle_z := 0, angle_inc_z := 0, drawmode := 0, speed := 0,
    motorAngle := 0, light_x := 0, light_y := 0, light_z := 0, numLights := 0,
    aspect_ratio := 0 }

/-- The assignments of `init` (lines 89-103).  `vy` and `drawmode` are not
assigned: line 93 writes `vx` twice. -/
def init (sc : Scene) : Scene :=
  { sc with
    speed := 5 / 100
    x := 5 / 100
    y := 0
    z := 0
    vx := 0
    vz := 4
    light_x := 0
    light_y := 1
    light_z := 0
    angle_x := 0
    angle_y := 0
    angle_z := 0
    angle_inc_x := 0
    angle_inc_y := 0
    angle_inc_z := 0
    model_scale := 1
    aspect_ratio := 13333 / 10000
    colourmode := 0
    emitmode := 0
    attenuationmode := 1
    motorAngle := 0
    numLights := 0 }

/-! ## Assignments to single globals -/

/-- The assignment `angle_inc_x = v`. -/
def Scene.set_angle_inc_x (sc : Scene) (v : ℚ) : Scene := { sc with angle_inc_x := v }

/-- The assignment `angle_inc_y = v`. -/
def Scene.set_angle_inc_y (sc : Scene) (v : ℚ) : Scene := { sc with angle_inc_y := v }

/-- The assignment `angle_inc_z = v`. -/
def Scene.set_angle_inc_z (sc : Scene) (v : ℚ) : Scene := { sc with angle_inc_z := v }

/-- The assignment `model_scale = v`. -/
def Scene.set_model_scale (sc : Scene) (v : ℚ) : Scene := { sc with model_scale := v }

/-- The assignment `x = v`. -/
def Scene.set_x (sc : Scene) (v : ℚ) : Scene := { sc with x := v }

/-- The assignment `y = v`. -/
def Scene.set_y (sc : Scene) (v : ℚ) : Scene := { sc with y := v }

/-- The assignment `z = v`. -/
def Scene.set_z (sc : Scene) (v : ℚ) : Scene := { sc with z := v }

/-- The assignment `light_x = v`. -/
def Scene.set_light_x (sc : Scene) (v : ℚ) : Scene := { sc with light_x := v }

/-- The assignment `light_y = v`. -/
def Scene.set_light_y (sc : Scene) (v : ℚ) : Scene := { sc with light_y := v }

/-- The assignment `light_z = v`. -/
def Scene.set_light_z (sc : Scene) (v : ℚ) : Scene := { sc with light_z := v }

/-- The assignment `vx = v`. -/
def Scene.set_vx (sc : Scene) (v : ℚ) : Scene := { sc with vx := v }

/-- The assignment `vy = v`. -/
def Scene.set_vy (sc : Scene) (v : ℚ) : Scene := { sc with vy := v }

/-- The assignment `vz = v`. -/
def Scene.set_vz (sc : Scene) (v : ℚ) : Scene := { sc with vz := v }

/-- The assignment `angle_x = v`. -/
def Scene.set_angle_x (sc : Scene) (v : ℚ) : Scene := { sc with angle_x := v }

/-- The assignment `angle_y = v`. -/
def Scene.set_angle_y (sc : Scene) (v : ℚ) : Scene := { sc with angle_y := v }

/-- The assignment `angle_z = v`. -/
def Scene.set_angle_z (sc : Scene) (v : ℚ) : Scene := { sc with angle_z := v }

/-- The assignment `motorAngle = v`. -/
def Scene.set_motorAngle (sc : Scene) (v : ℚ) : Scene := { sc with motorAngle := v }

/-- The assignment `aspect_ratio = v`. -/
def Scene.set_aspect_ratio (sc : Scene) (v : ℚ) : Scene := { sc with aspect_ratio := v }

/-- The assignment `colourmode = v`. -/
def Scene.set_colourmode (sc : Scene) (v : Nat) : Scene := { sc with colourmode := v }

/-- The assignment `emitmode = v`. -/
def Scene.set_emitmode (sc : Scene) (v : Nat) : Scene := { sc with emitmode := v }

/-- The assignment `attenuationmode = v`. -/
def Scene.set_attenuationmode (sc : Scene) (v : Nat) : Scene := { sc with attenuationmode := v }

/-- The assignment `drawmode = v`. -/
def Scene.set_drawmode (sc : Scene) (v : Nat) : Scene := { sc with drawmode := v }

/-- The assignment `numLights = v`. -/
def Scene.set_numLights (sc : Scene) (v : Int) : Scene := { sc with numLights := v }

/-! ## Window events -/

/-- The GLFW action code `GLFW_RELEASE`. -/
def GLFW_RELEASE : Int := 0

/-- The GLFW action code `GLFW_PRESS`. -/
def GLFW_PRESS : Int := 1

/-- The GLFW action code `GLFW_REPEAT`. -/
def GLFW_REPEAT : Int := 2

/-- The GLFW key code `GLFW_KEY_ESCAPE`. -/
def GLFW_KEY_ESCAPE : Int := 256

/-- The integer value of a character constant such as `'Q'`. -/
def chr (c : Char) : Int := (c.toNat : Int)

/-- The C++ expression `!v` stored back into a `GLuint`. -/
def lnot (v : Nat) : Nat := if v = 0 then 1 else 0

/-- The rectangle handed to `glViewport`. -/
structure Viewport where
  x : Int
  y : Int
  width : Int
  height : Int
deriving DecidableEq

/-- The function `reshape` (lines 680-684): sets the viewport and recomputes
`aspect_ratio`. -/
def reshape (sc : Scene) (w h : Int) : Scene × Viewport :=
  (sc.set_aspect_ratio (((w : ℚ) / 640 * 4) / ((h : ℚ) / 480 * 3)),
   { x := 0, y := 0, width := w, height := h })

/-- The function `keyCallback` (lines 687-740).  The second component tells
whether `glfwSetWindowShouldClose` was called.  The console output of line 725
is not modelled. -/
def keyCallback (sc : Scene) (key action : Int) : Scene × Bool :=
  let close := decide (key = GLFW_KEY_ESCAPE ∧ action = GLFW_PRESS)
  let sc := if key = chr 'Q' then sc.set_angle_inc_x (sc.angle_inc_x - sc.speed) else sc
  let sc := if key = chr 'W' then sc.set_angle_inc_x (sc.angle_inc_x + sc.speed) else sc
  let sc := if key = chr 'E' then sc.set_angle_inc_y (sc.angle_inc_y - sc.speed) else sc
  let sc := if key = chr 'R' then sc.set_angle_inc_y (sc.angle_inc_y + sc.speed) else sc
  let sc := if key = chr 'T' then sc.set_angle_inc_z (sc.angle_inc_z - sc.speed) else sc
  let sc := if key = chr 'Y' then sc.set_angle_inc_z (sc.angle_inc_z + sc.speed) else sc
  let sc := if key = chr 'A' then sc.set_model_scale (sc.model_scale - sc.speed / (1 / 2)) else sc
  let sc := if key = chr 'S' then sc.set_model_scale (sc.model_scale + sc.speed / (1 / 2)) else sc
  let sc := if key = chr 'Z' then sc.set_x (sc.x - sc.speed) else sc
  let sc := if key = chr 'X' then sc.set_x (sc.x + sc.speed) else sc
  let sc := if key = chr 'C' then sc.set_y (sc.y - sc.speed) else sc
  let sc := if key = chr 'V' then sc.set_y (sc.y + sc.speed) else sc
  let sc := if key = chr 'B' then sc.set_z (sc.z - sc.speed) else sc
  let sc := if key = chr 'N' then sc.set_z (sc.z + sc.speed) else sc
  let sc := if key = chr '1' then sc.set_light_x (sc.light_x - sc.speed) else sc
  let sc := if key = chr '2' then sc.set_light_x (sc.light_x + sc.speed) else sc
  let sc := if key = chr '3' then sc.set_light_y (sc.light_y - sc.speed) else sc
  let sc := if key = chr '4' then sc.set_light_y (sc.light_y + sc.speed) else sc
  let sc := if key = chr '5' then sc.set_light_z (sc.light_z - sc.speed) else sc
  let sc := if key = chr '6' then sc.set_light_z (sc.light_z + sc.speed) else sc
  let sc := if key = chr '7' then sc.set_vx (sc.vx - 1) else sc
  let sc := if key = chr '8' then sc.set_vx (sc.vx + 1) else sc
  let sc := if key = chr '9' then sc.set_vy (sc.vy - 1) else sc
  let sc := if key = chr '0' then sc.set_vy (sc.vy + 1) else sc
  let sc := if key = chr 'O' then sc.set_vz (sc.vz - 1) else sc
  let sc := if key = chr 'P' then sc.set_vz (sc.vz + 1) else sc
  let sc := if key = chr 'M' ∧ action ≠ GLFW_PRESS then
      sc.set_colourmode (lnot sc.colourmode) else sc
  let sc := if key = chr '.' ∧ action ≠ GLFW_PRESS then
      sc.set_attenuationmode (lnot sc.attenuationmode) else sc
  let sc := if key = chr ',' ∧ action ≠ GLFW_PRESS then
      let sc := sc.set_drawmode ((sc.drawmode + 1) % 2 ^ 32)
      if sc.drawmode > 2 then sc.set_drawmode 0 else sc
    else sc
  (sc, close)

/-! ## Matrices and the GLM transform functions

`main.cpp` builds every model matrix with `glm::translate`, `glm::scale`,
`glm::rotate` and `glm::radians`.  GLM is a library outside `src/`; the functions
below follow its column arithmetic (`m[c]` is column `c` of `m`), over exact
rationals.  Cosine, sine, the inverse square root and the degree-to-radian factor
are parameters, collected in `GLM`. -/

/-- A 4x4 matrix (`glm::mat4`), indexed by row and then column; column `c` of
`m`, written `m[c]` in the source, is `fun i => m i c`. -/
abbrev Mat4 := Matrix (Fin 4) (Fin 4) ℚ

/-- A `glm::vec3`. -/
structure Vec3 where
  x : ℚ
  y : ℚ
  z : ℚ
deriving DecidableEq

/-- A `glm::vec4`. -/
structure Vec4 where
  x : ℚ
  y : ℚ
  z : ℚ
  w : ℚ
deriving DecidableEq

/-- Modelled from the spec: the scalar functions that the GLM transforms use
(the library is not under `src/`).  `degToRad` stands for pi/180.  The only
arithmetic fact assumed is that the inverse square root of 1 is 1, which is what
makes the unit axes of `display` their own normalisation. -/
structure GLM where
  cos : ℚ → ℚ
  sin : ℚ → ℚ
  inversesqrt : ℚ → ℚ
  degToRad : ℚ
  inversesqrt_one : inversesqrt 1 = 1

/-- Modelled from the spec: `glm::radians`, degrees times pi/180. -/
def radians (G : GLM) (degrees : ℚ) : ℚ := degrees * G.degToRad

/-- Modelled from the spec: `glm::normalize`, `v * inversesqrt(dot(v, v))`. -/
def normalize (G : GLM) (v : Vec3) : Vec3 :=
  let k := G.inversesqrt (v.x * v.x + v.y * v.y + v.z * v.z)
  { x := v.x * k, y := v.y * k, z := v.z * k }

/-- Modelled from the spec: `glm::translate(m, v)`.  Columns 0 to 2 are those of
`m`; column 3 is `m[0] * v[0] + m[1] * v[1] + m[2] * v[2] + m[3]`. -/
def translate (m : Mat4) (v : Vec3) : Mat4 :=
  Matrix.of fun i j =>
    ![m i 0, m i 1, m i 2, m i 0 * v.x + m i 1 * v.y + m i 2 * v.z + m i 3] j

/-- Modelled from the spec: `glm::scale(m, v)`.  Column `c < 3` is `m[c] * v[c]`;
column 3 is `m[3]`. -/
def scale (m : Mat4) (v : Vec3) : Mat4 :=
  Matrix.of fun i j => ![m i 0 * v.x, m i 1 * v.y, m i 2 * v.z, m i 3] j

/-- Modelled from the spec: `glm::rotate(m, angle, v)`.  `rCR` is GLM's
`Rotate[C][R]` (column `C`, row `R`) of the axis-angle rotation about the
normalised axis; column `c < 3` of the result is
`m[0] * Rotate[c][0] + m[1] * Rotate[c][1] + m[2] * Rotate[c][2]`, column 3 is
`m[3]`. -/
def rotate (G : GLM) (m : Mat4) (angle : ℚ) (v : Vec3) : Mat4 :=
  let c := G.cos angle
  let s := G.sin angle
  let axis := normalize G v
  let temp : Vec3 := { x := (1 - c) * axis.x, y := (1 - c) * axis.y, z := (1 - c) * axis.z }
  let r00 := c + temp.x * axis.x
  let r01 := temp.x * axis.y + s * axis.z
  let r02 := temp.x * axis.z - s * axis.y
  let r10 := temp.y * axis.x - s * axis.z
  let r11 := c + temp.y * axis.y
  let r12 := temp.y * axis.z + s * axis.x
  let r20 := temp.z * axis.x + s * axis.y
  let r21 := temp.z * axis.y - s * axis.x
  let r22 := c + temp.z * axis.z
  Matrix.of fun i j =>
    ![m i 0 * r00 + m i 1 * r01 + m i 2 * r02,
      m i 0 * r10 + m i 1 * r11 + m i 2 * r12,
      m i 0 * r20 + m i 1 * r21 + m i 2 * r22,
      m i 3] j

/-- A concrete `GLM` for evaluating the scene at explicit inputs: cosine and sine
are their Taylor polynomials of degree 4 and 3 (so `cos 0 = 1` and `sin 0 = 0`
exactly), pi is 355/113, and the inverse square root is exact at 1. -/
def GLM.taylor : GLM where
  cos t := 1 - t ^ 2 / 2 + t ^ 4 / 24
  sin t := t - t ^ 3 / 6
  inversesqrt t := if t = 1 then 1 else 2 / (1 + t)
  degToRad := 355 / (113 * 180)
  inversesqrt_one := by simp

/-! ## The frame: state of one call of `display`

`display` works on the globals, on the uniforms of the shader program and on its
local matrix stack `model`.  The frame also keeps two records that the source does
not store: the draw calls issued so far, each with the uniform values it was
issued under, and the stack depth found by every `pop`.

Not modelled: the view and projection matrices, the light position and the normal
matrix (uniforms that need `lookAt`, `perspective` and a matrix inverse) and the
clear and enable calls. -/

/-- The mesh objects of lines 74-77. -/
inductive Mesh
  | sphere
  | cube
  | tube
  | motorBell
  | motorStator
  | motorShaft
deriving DecidableEq

/-- The place of a draw call in the source: a label for the block of `display`
that issues it.  For the struts, `i` is the motor, `j` the pair, and the flag is
true for the first strut of the pair (lines 355-372). -/
inductive Part
  | light
  | plateLower
  | plateUpper
  | arm (i : Nat)
  | strut (i j : Nat) (first : Bool)
  | shaft (i : Nat)
  | bell (i : Nat)
  | baseLong (i : Nat)
  | baseCross (i : Nat)
  | stator (i : Nat)
  | standoff (k : Nat)
deriving DecidableEq

/-- The uniforms of the shader program that `display` writes (those whose value
does not depend on the view matrix). -/
structure Uniforms where
  model : Mat4
  colourMode : Nat
  emitMode : Nat
  attenuationMode : Nat
  numLights : Int
  reflectiveness : ℚ
  colourOverride : Vec4

/-- A write to the uniform `model`. -/
def Uniforms.set_model (gl : Uniforms) (v : Mat4) : Uniforms := { gl with model := v }

/-- A write to the uniform `colourMode`. -/
def Uniforms.set_colourMode (gl : Uniforms) (v : Nat) : Uniforms := { gl with colourMode := v }

/-- A write to the uniform `emitMode`. -/
def Uniforms.set_emitMode (gl : Uniforms) (v : Nat) : Uniforms := { gl with emitMode := v }

/-- A write to the uniform `attenuationMode`. -/
def Uniforms.set_attenuationMode (gl : Uniforms) (v : Nat) : Uniforms :=
  { gl with attenuationMode := v }

/-- A write to the uniform `numLights`. -/
def Uniforms.set_numLights (gl : Uniforms) (v : Int) : Uniforms := { gl with numLights := v }

/-- A write to the uniform `reflectiveness`. -/
def Uniforms.set_reflectiveness (gl : Uniforms) (v : ℚ) : Uniforms :=
  { gl with reflectiveness := v }

/-- A write to the uniform `colourOverride`. -/
def Uniforms.set_colourOverride (gl : Uniforms) (v : Vec4) : Uniforms :=
  { gl with colourOverride := v }

/-- One call of `drawSphere`, `drawCube` or `drawTube`: the mesh, the draw mode
passed, and the uniform values in force. -/
structure DrawCall where
  part : Part
  mesh : Mesh
  drawmode : Nat
  uniforms : Uniforms

/-- State of one call of `display`.  `model` is the local `stack<mat4>`, head
first; `calls` and `pops` are the two records. -/
structure Frame where
  sc : Scene
  gl : Uniforms
  model : List Mat4
  calls : List DrawCall
  pops : List Nat

/-- The statement `model.push(m)`. -/
def Frame.push (m : Mat4) (f : Frame) : Option Frame :=
  some { f with model := m :: f.model }

/-- The expression `model.top()`: undefined on an empty stack. -/
def Frame.top (f : Frame) : Option Mat4 :=
  f.model.head?

/-- The statement `model.push(model.top())`. -/
def Frame.pushTop (f : Frame) : Option Frame := do
  let m ← f.top
  f.push m

/-- The statement `model.pop()`: undefined on an empty stack; records the depth
it found. -/
def Frame.pop (f : Frame) : Option Frame :=
  match f.model with
  | [] => none
  | _ :: rest => some { f with model := rest, pops := f.pops ++ [rest.length + 1] }

/-- The assignment `model.top() = m`: undefined on an empty stack. -/
def Frame.setTop (m : Mat4) (f : Frame) : Option Frame :=
  match f.model with
  | [] => none
  | _ :: rest => some { f with model := m :: rest }

/-- The statement `model.top() = translate(model.top(), v)`. -/
def Frame.translateTop (v : Vec3) (f : Frame) : Option Frame := do
  let m ← f.top
  f.setTop (translate m v)

/-- The statement `model.top() = scale(model.top(), v)`. -/
def Frame.scaleTop (v : Vec3) (f : Frame) : Option Frame := do
  let m ← f.top
  f.setTop (scale m v)

/-- The statement `model.top() = rotate(model.top(), angle, axis)`. -/
def Frame.rotateTop (G : GLM) (angle : ℚ) (axis : Vec3) (f : Frame) : Option Frame := do
  let m ← f.top
  f.setTop (rotate G m angle axis)

/-- An assignment to globals. -/
def Frame.assign (g : Scene → Scene) (f : Frame) : Option Frame :=
  some { f with sc := g f.sc }

/-- The call `glUniformMatrix4fv(modelID, 1, GL_FALSE, &(model.top()[0][0]))`. -/
def Frame.uniformModel (f : Frame) : Option Frame := do
  let m ← f.top
  some { f with gl := f.gl.set_model m }

/-- The call `glUniform1ui(colourModeID, colourmode)`. -/
def Frame.uniformColourMode (f : Frame) : Option Frame :=
  some { f with gl := f.gl.set_colourMode f.sc.colourmode }

/-- The call `glUniform1ui(attenuationModeID, attenuationmode)`. -/
def Frame.uniformAttenuationMode (f : Frame) : Option Frame :=
  some { f with gl := f.gl.set_attenuationMode f.sc.attenuationmode }

/-- The call `glUniform1ui(emitModeID, emitmode)`. -/
def Frame.uniformEmitMode (f : Frame) : Option Frame :=
  some { f with gl := f.gl.set_emitMode f.sc.emitmode }

/-- The call `glUniform1ui(numLightsID, numLights)`, after the increment. -/
def Frame.uniformNumLights (f : Frame) : Option Frame :=
  some { f with gl := f.gl.set_numLights f.sc.numLights }

/-- The call `glUniform1f(reflectivenessID, r)`. -/
def Frame.uniformReflectiveness (r : ℚ) (f : Frame) : Option Frame :=
  some { f with gl := f.gl.set_reflectiveness r }

/-- The call `glUniform4fv(colourOverrideID, 1, &c[0])`. -/
def Frame.uniformColourOverride (c : Vec4) (f : Frame) : Option Frame :=
  some { f with gl := f.gl.set_colourOverride c }

/-- A draw call (`drawSphere(drawmode)`, `drawCube(drawmode)`, `drawTube(drawmode)`)
on `mesh`, issued by the block `part`. -/
def Frame.draw (part : Part) (mesh : Mesh) (f : Frame) : Option Frame :=
  some { f with calls := f.calls ++
    [{ part := part, mesh := mesh, drawmode := f.sc.drawmode, uniforms := f.gl }] }

/-- A sequence of statements, executed in order; it has a result when every
statement has one. -/
def Frame.seq : List (Frame → Option Frame) → Frame → Option Frame
  | [], f => some f
  | stmt :: rest, f => (stmt f).bind (Frame.seq rest)

/-- The loop `for (int i = 0; i < n; i++) body`. -/
def forLoop (n : Nat) (body : Nat → Frame → Option Frame) (f : Frame) : Option Frame :=
  (List.range n).foldlM (fun f i => body i f) f

/-! ## The constants of `display` (lines 235-252) -/

/-- The vector `framePlateScale`. -/
def framePlateScale : Vec3 := ⟨1, 15 / 1000, 3 / 10⟩

/-- The vector `frameArmScale`. -/
def frameArmScale : Vec3 := ⟨8 / 10, 3 / 100, 15 / 100⟩

/-- The vector `standoffScale`. -/
def standoffScale : Vec3 := ⟨25 / 1000, 17 / 100, 25 / 1000⟩

/-- The vector `motorBellScale`. -/
def motorBellScale : Vec3 := ⟨15 / 100, 85 / 1000, 15 / 100⟩

/-- The vector `motorStatorScale`. -/
def motorStatorScale : Vec3 := ⟨125 / 1000, 8 / 100, 125 / 1000⟩

/-- The vector `motorShaftScale`. -/
def motorShaftScale : Vec3 := ⟨25 / 1000, 85 / 1000, 25 / 1000⟩

/-- The vector `motorStrutsScale`. -/
def motorStrutsScale : Vec3 := ⟨11 / 1000, 11 / 1000, 14 / 100⟩

/-- The colour `frameColour`. -/
def frameColour : Vec4 := ⟨20 / 100, 20 / 100, 20 / 100, 1⟩

/-- The colour `motorColour`. -/
def motorColour : Vec4 := ⟨60 / 100, 60 / 100, 60 / 100, 1⟩

/-- The colour `motorStatorColour`. -/
def motorStatorColour : Vec4 := ⟨88 / 100, 44 / 100, 0, 1⟩

/-- The colour `standoffColour`. -/
def standoffColour : Vec4 := ⟨1, 0, 0, 1⟩

/-- The value `frameReflect`. -/
def frameReflect : ℚ := 0

/-- The value `motorReflect`. -/
def motorReflect : ℚ := 10

/-- The value `motorStatorReflect`. -/
def motorStatorReflect : ℚ := 2

/-- The value `standoffReflect`. -/
def standoffReflect : ℚ := 4

/-! ## The blocks of `display` -/

/-- Lines 205-221: the sphere at the light position. -/
def display_light : Frame → Option Frame :=
  Frame.seq [
    Frame.pushTop,
    fun f => f.translateTop ⟨f.sc.light_x, f.sc.light_y, f.sc.light_z⟩,
    (Frame.scaleTop ⟨5 / 100, 5 / 100, 5 / 100⟩),
    Frame.uniformModel,
    (Frame.assign (fun sc => sc.set_emitmode 1)),
    Frame.uniformEmitMode,
    (Frame.draw Part.light Mesh.sphere),
    (Frame.assign (fun sc => sc.set_emitmode 0)),
    Frame.uniformEmitMode,
    Frame.pop]

/-- Lines 254-293: the two frame plates. -/
def display_plates : Frame → Option Frame :=
  Frame.seq [
    Frame.pushTop,
    (Frame.translateTop ⟨0, -(85 / 1000), 0⟩),
    (Frame.scaleTop framePlateScale),
    (Frame.uniformReflectiveness frameReflect),
    (Frame.uniformColourOverride frameColour),
    Frame.uniformModel,
    (Frame.draw (Part.plateLower) Mesh.cube),
    Frame.pop,
    Frame.pushTop,
    (Frame.translateTop ⟨0, 85 / 1000, 0⟩),
    (Frame.scaleTop framePlateScale),
    (Frame.uniformReflectiveness frameReflect),
    (Frame.uniformColourOverride frameColour),
    Frame.uniformModel,
    (Frame.draw (Part.plateUpper) Mesh.cube),
    Frame.pop]

/-- Lines 299-317: the body of the loop over the four arms. -/
def display_arm (G : GLM) (i : Nat) : Frame → Option Frame :=
  Frame.seq [
    Frame.pushTop,
    (Frame.rotateTop G (-(radians G (90 * (i : ℚ) + 45))) ⟨0, 1, 0⟩),
    (Frame.translateTop ⟨45 / 100, -(1 / 10), 0⟩),
    (Frame.scaleTop frameArmScale),
    (Frame.uniformReflectiveness frameReflect),
    (Frame.uniformColourOverride frameColour),
    Frame.uniformModel,
    (Frame.draw (Part.arm i) Mesh.cube),
    Frame.pop]

/-- Lines 352-393: the body of the loop over the three pairs of struts of motor
`i`. -/
def display_strut_pair (G : GLM) (i j : Nat) : Frame → Option Frame :=
  Frame.seq [
    Frame.pushTop,
    (Frame.rotateTop G (-(radians G (120 * (j : ℚ)))) ⟨0, 1, 0⟩),
    Frame.pushTop,
    (Frame.translateTop ⟨15 / 1000, 0, 0⟩),
    (Frame.scaleTop motorStrutsScale),
    (Frame.uniformReflectiveness motorReflect),
    (Frame.uniformColourOverride motorColour),
    Frame.uniformModel,
    (Frame.draw (Part.strut i j true) Mesh.cube),
    Frame.pop,
    Frame.pushTop,
    (Frame.translateTop ⟨-(15 / 1000), 0, 0⟩),
    (Frame.scaleTop motorStrutsScale),
    (Frame.uniformReflectiveness motorReflect),
    (Frame.uniformColourOverride motorColour),
    Frame.uniformModel,
    (Frame.draw (Part.strut i j false) Mesh.cube),
    Frame.pop,
    Frame.pop]

/-- Lines 337-344: the spin of motor `i`.  `motorAngle++` yields the old value
and adds 1; the even motors rotate by the negated value. -/
def display_spin (G : GLM) (i : Nat) (f : Frame) : Option Frame :=
  let angle := f.sc.motorAngle
  (f.assign (fun sc => sc.set_motorAngle (sc.motorAngle + 1))).bind fun f =>
    if i % 2 = 0 then f.rotateTop G (-(radians G angle)) ⟨0, 1, 0⟩
    else f.rotateTop G (radians G angle) ⟨0, 1, 0⟩

/-- Lines 334-439: the spinning parts of motor `i` (struts, shaft, bell). -/
def display_moving (G : GLM) (i : Nat) : Frame → Option Frame :=
  Frame.seq [
    Frame.pushTop,
    display_spin G i,
    Frame.pushTop,
    (Frame.translateTop ⟨0, 42 / 1000, 0⟩),
    forLoop 3 (display_strut_pair G i),
    Frame.pop,
    Frame.pushTop,
    (Frame.translateTop ⟨0, 6 / 100, 0⟩),
    (Frame.scaleTop motorShaftScale),
    (Frame.rotateTop G (-(radians G 90)) ⟨1, 0, 0⟩),
    (Frame.uniformReflectiveness motorReflect),
    (Frame.uniformColourOverride motorColour),
    Frame.uniformModel,
    (Frame.draw (Part.shaft i) Mesh.motorShaft),
    Frame.pop,
    Frame.pushTop,
    (Frame.scaleTop motorBellScale),
    (Frame.rotateTop G (-(radians G 90)) ⟨1, 0, 0⟩),
    (Frame.uniformReflectiveness motorReflect),
    (Frame.uniformColourOverride motorColour),
    Frame.uniformModel,
    (Frame.draw (Part.bell i) Mesh.motorBell),
    Frame.pop,
    Frame.pop]

/-- Lines 324-506: the body of the loop over the four motors (moving parts, the two
blocks of the base, stator). -/
def display_motor (G : GLM) (i : Nat) : Frame → Option Frame :=
  Frame.seq [
    Frame.pushTop,
    Frame.pushTop,
    (Frame.rotateTop G (-(radians G (90 * (i : ℚ) + 45))) ⟨0, 1, 0⟩),
    (Frame.translateTop ⟨77 / 100, -(2 / 100), 0⟩),
    display_moving G i,
    Frame.pushTop,
    (Frame.translateTop ⟨0, -(6 / 100), 0⟩),
    (Frame.scaleTop ⟨12 / 100, 1 / 100, 4 / 100⟩),
    (Frame.uniformReflectiveness motorReflect),
    (Frame.uniformColourOverride motorColour),
    Frame.uniformModel,
    (Frame.draw (Part.baseLong i) Mesh.cube),
    Frame.pop,
    Frame.pushTop,
    (Frame.translateTop ⟨0, -(6 / 100), 0⟩),
    (Frame.scaleTop ⟨4 / 100, 1 / 100, 12 / 100⟩),
    (Frame.uniformReflectiveness motorReflect),
    (Frame.uniformColourOverride motorColour),
    Frame.uniformModel,
    (Frame.draw (Part.baseCross i) Mesh.cube),
    Frame.pop,
    Frame.pushTop,
    (Frame.translateTop ⟨0, -(15 / 1000), 0⟩),
    (Frame.scaleTop motorStatorScale),
    (Frame.rotateTop G (-(radians G 90)) ⟨1, 0, 0⟩),
    (Frame.uniformReflectiveness motorStatorReflect),
    (Frame.uniformColourOverride motorStatorColour),
    Frame.uniformModel,
    (Frame.draw (Part.stator i) Mesh.motorStator),
    Frame.pop,
    Frame.pop,
    Frame.pop]

/-- Lines 516-665: the eight standoffs; only the first block sets the reflectiveness
and the colour. -/
def display_standoffs (G : GLM) : Frame → Option Frame :=
  Frame.seq [
    Frame.pushTop,
    (Frame.translateTop ⟨45 / 100, 0, 12 / 100⟩),
    (Frame.scaleTop standoffScale),
    (Frame.rotateTop G (-(radians G 90)) ⟨1, 0, 0⟩),
    (Frame.uniformReflectiveness standoffReflect),
    (Frame.uniformColourOverride standoffColour),
    Frame.uniformModel,
    (Frame.draw (Part.standoff 0) Mesh.tube),
    Frame.pop,
    Frame.pushTop,
    (Frame.translateTop ⟨2 / 10, 0, 12 / 100⟩),
    (Frame.scaleTop standoffScale),
    (Frame.rotateTop G (-(radians G 90)) ⟨1, 0, 0⟩),
    Frame.uniformModel,
    (Frame.draw (Part.standoff 1) Mesh.tube),
    Frame.pop,
    Frame.pushTop,
    (Frame.translateTop ⟨-(2 / 10), 0, 12 / 100⟩),
    (Frame.scaleTop standoffScale),
    (Frame.rotateTop G (-(radians G 90)) ⟨1, 0, 0⟩),
    Frame.uniformModel,
    (Frame.draw (Part.standoff 2) Mesh.tube),
    Frame.pop,
    Frame.pushTop,
    (Frame.translateTop ⟨-(45 / 100), 0, 12 / 100⟩),
    (Frame.scaleTop standoffScale),
    (Frame.rotateTop G (-(radians G 90)) ⟨1, 0, 0⟩),
    Frame.uniformModel,
    (Frame.draw (Part.standoff 3) Mesh.tube),
    Frame.pop,
    Frame.pushTop,
    (Frame.translateTop ⟨45 / 100, 0, -(12 / 100)⟩),
    (Frame.scaleTop standoffScale),
    (Frame.rotateTop G (-(radians G 90)) ⟨1, 0, 0⟩),
    Frame.uniformModel,
    (Frame.draw (Part.standoff 4) Mesh.tube),
    Frame.pop,
    Frame.pushTop,
    (Frame.translateTop ⟨2 / 10, 0, -(12 / 100)⟩),
    (Frame.scaleTop standoffScale),
    (Frame.rotateTop G (-(radians G 90)) ⟨1, 0, 0⟩),
    Frame.uniformModel,
    (Frame.draw (Part.standoff 5) Mesh.tube),
    Frame.pop,
    Frame.pushTop,
    (Frame.translateTop ⟨-(2 / 10), 0, -(12 / 100)⟩),
    (Frame.scaleTop standoffScale),
    (Frame.rotateTop G (-(radians G 90)) ⟨1, 0, 0⟩),
    Frame.uniformModel,
    (Frame.draw (Part.standoff 6) Mesh.tube),
    Frame.pop,
    Frame.pushTop,
    (Frame.translateTop ⟨-(45 / 100), 0, -(12 / 100)⟩),
    (Frame.scaleTop standoffScale),
    (Frame.rotateTop G (-(radians G 90)) ⟨1, 0, 0⟩),
    Frame.uniformModel,
    (Frame.draw (Part.standoff 7) Mesh.tube),
    Frame.pop]

/-- Lines 230-667: the drone (plates, arms, motors, the empty block of lines
510-513, standoffs). -/
def display_drone (G : GLM) : Frame → Option Frame :=
  Frame.seq [
    Frame.pushTop,
    fun f => f.translateTop ⟨f.sc.x, f.sc.y, f.sc.z⟩,
    display_plates,
    forLoop 4 (display_arm G),
    forLoop 4 (display_motor G),
    Frame.pushTop,
    Frame.pop,
    display_standoffs G,
    Frame.pop]

/-- The frame in which the statements of `display` start: the globals and the
uniforms as the previous events left them, and the new, empty `stack<mat4> model`
of line 169. -/
def Frame.enter (sc : Scene) (gl : Uniforms) : Frame :=
  { sc := sc, gl := gl, model := [], calls := [], pops := [] }

/-- Lines 169-170: the frame after `model.push(mat4(1.0f))`. -/
def display_start (sc : Scene) (gl : Uniforms) : Option Frame :=
  (Frame.enter sc gl).push 1

/-- Lines 193-667 and 674-676: the statements of `display` after line 170. -/
def display_body (G : GLM) : Frame → Option Frame :=
  Frame.seq [
    (Frame.assign (fun sc => sc.set_numLights 0)),
    Frame.uniformColourMode,
    Frame.uniformAttenuationMode,
    (Frame.assign (fun sc => sc.set_numLights (sc.numLights + 1))),
    Frame.uniformNumLights,
    display_light,
    fun f => f.scaleTop ⟨f.sc.model_scale, f.sc.model_scale, f.sc.model_scale⟩,
    fun f => f.rotateTop G (-(radians G f.sc.angle_x)) ⟨1, 0, 0⟩,
    fun f => f.rotateTop G (-(radians G f.sc.angle_y)) ⟨0, 1, 0⟩,
    fun f => f.rotateTop G (-(radians G f.sc.angle_z)) ⟨0, 0, 1⟩,
    display_drone G,
    (Frame.assign (fun sc => sc.set_angle_x (sc.angle_x + sc.angle_inc_x))),
    (Frame.assign (fun sc => sc.set_angle_y (sc.angle_y + sc.angle_inc_y))),
    (Frame.assign (fun sc => sc.set_angle_z (sc.angle_z + sc.angle_inc_z)))]

/-- The function `display` (lines 153-677), from the globals `sc` and the uniform
values `gl` of the shader program.  The result is the frame at the closing
brace, with the local stack as the last statement left it. -/
def display (G : GLM) (sc : Scene) (gl : Uniforms) : Option Frame :=
  (display_start sc gl).bind (display_body G)

/-! ## Vocabulary of the properties -/

/-- The outcome `sc2` of an event on `sc` is exactly `target`, and differs from `sc`.
With `target` written as `sc` with one field replaced, this says that the event
changed that field and nothing else. -/
def ChangesOnly (sc sc2 target : Scene) : Prop := sc2 = target ∧ sc2 ≠ sc

/-- Scenes reachable from the scene `init` sets up by key events. -/
inductive KeyReachable : Scene → Prop
  | start : KeyReachable (init Scene.zero)
  | key (sc : Scene) (key action : Int) :
      KeyReachable sc → KeyReachable (keyCallback sc key action).1

/-- The translation matrix T(v) of the specification. -/
def matT (v : Vec3) : Mat4 :=
  !![1, 0, 0, v.x; 0, 1, 0, v.y; 0, 0, 1, v.z; 0, 0, 0, 1]

/-- The scaling matrix S(v) of the specification. -/
def matS (v : Vec3) : Mat4 :=
  !![v.x, 0, 0, 0; 0, v.y, 0, 0; 0, 0, v.z, 0; 0, 0, 0, 1]

/-- The rotation matrix Rx(a) of the specification: rotation about the x axis by
`a` radians. -/
def matRx (G : GLM) (a : ℚ) : Mat4 :=
  !![1, 0, 0, 0; 0, G.cos a, -G.sin a, 0; 0, G.sin a, G.cos a, 0; 0, 0, 0, 1]

/-- The rotation matrix Ry(a) of the specification: rotation about the y axis by
`a` radians. -/
def matRy (G : GLM) (a : ℚ) : Mat4 :=
  !![G.cos a, 0, G.sin a, 0; 0, 1, 0, 0; -G.sin a, 0, G.cos a, 0; 0, 0, 0, 1]

/-- The rotation matrix Rz(a) of the specification: rotation about the z axis by
`a` radians. -/
def matRz (G : GLM) (a : ℚ) : Mat4 :=
  !![G.cos a, -G.sin a, 0, 0; G.sin a, G.cos a, 0, 0; 0, 0, 1, 0; 0, 0, 0, 1]

/-- The uniform values of a freshly linked shader program: all zero. -/
def Uniforms.zero : Uniforms :=
  { model := 0, colourMode := 0, emitMode := 0, attenuationMode := 0, numLights := 0,
    reflectiveness := 0, colourOverride := ⟨0, 0, 0, 0⟩ }

/-- The model matrices uploaded for the draw calls that the block `part` issued,
in order. -/
def Frame.modelsOf (f : Frame) (part : Part) : List Mat4 :=
  (f.calls.filter (fun call => decide (call.part = part))).map
    (fun call => call.uniforms.model)

/-- The matrix of the drone body in the specification's terms: the global scale
and rotations, then the translation to the body position. -/
def bodyMatrix (G : GLM) (sc : Scene) : Mat4 :=
  matS ⟨sc.model_scale, sc.model_scale, sc.model_scale⟩ * matRx G (-(radians G sc.angle_x)) *
    matRy G (-(radians G sc.angle_y)) * matRz G (-(radians G sc.angle_z)) *
    matT ⟨sc.x, sc.y, sc.z⟩

/-- The matrix at the foot of motor `i` in the specification's terms. -/
def motorMatrix (G : GLM) (sc : Scene) (i : Nat) : Mat4 :=
  bodyMatrix G sc * matRy G (-(radians G (90 * (i : ℚ) + 45))) *
    matT ⟨77 / 100, -(2 / 100), 0⟩

/-- The matrix of the spinning parts of motor `i` in the specification's terms:
motor `i` reads the counter after `i` increments, and the even motors rotate by
the negated value. -/
def spinMatrix (G : GLM) (sc : Scene) (i : Nat) : Mat4 :=
  motorMatrix G sc i *
    matRy G (if i % 2 = 0 then -(radians G (sc.motorAngle + (i : ℚ)))
      else radians G (sc.motorAngle + (i : ℚ)))

/-- The angle of the spin rotation of motor `i` in the specification's terms: the
counter value that motor `i` reads (the start value plus `i`), in radians,
negated for the even motors. -/
def spinAngle (G : GLM) (sc : Scene) (i : Nat) : ℚ :=
  if i % 2 = 0 then -(radians G (sc.motorAngle + (i : ℚ)))
  else radians G (sc.motorAngle + (i : ℚ))

/-! ## The draw calls of one frame, block by block

For each block of `display`: the draw calls it issues and the depths its pops
find, as functions of the matrix `m` on top of the stack when the block starts,
of the uniform values `gl` and the draw mode `dm` in force there, and of the
stack depth `d` there. -/

/-- The uniform values under which a part is drawn: `gl` with the model matrix,
the reflectiveness and the colour of the part. -/
def Uniforms.forPart (gl : Uniforms) (m : Mat4) (refl : ℚ) (col : Vec4) : Uniforms :=
  { gl with model := m, reflectiveness := refl, colourOverride := col }

/-- The draw call of a part. -/
def partCall (gl : Uniforms) (dm : Nat) (part : Part) (mesh : Mesh) (m : Mat4) (refl : ℚ)
    (col : Vec4) : DrawCall :=
  { part := part, mesh := mesh, drawmode := dm, uniforms := gl.forPart m refl col }

/-- The model matrix of the light sphere, from the top `m`. -/
def lightModel (sc : Scene) (m : Mat4) : Mat4 :=
  scale (translate m ⟨sc.light_x, sc.light_y, sc.light_z⟩) ⟨5 / 100, 5 / 100, 5 / 100⟩

/-- The draw call of `display_light`. -/
def lightCalls (sc : Scene) (gl : Uniforms) (m : Mat4) : List DrawCall :=
  [{ part := Part.light, mesh := Mesh.sphere, drawmode := sc.drawmode,
     uniforms := (gl.set_model (lightModel sc m)).set_emitMode 1 }]

/-- The draw calls of `display_plates`. -/
def platesCalls (gl : Uniforms) (dm : Nat) (m : Mat4) : List DrawCall :=
  [partCall gl dm Part.plateLower Mesh.cube
     (scale (translate m ⟨0, -(85 / 1000), 0⟩) framePlateScale) frameReflect frameColour,
   partCall gl dm Part.plateUpper Mesh.cube
     (scale (translate m ⟨0, 85 / 1000, 0⟩) framePlateScale) frameReflect frameColour]

/-- The model matrix of arm `i`, from the top `m`. -/
def armModel (G : GLM) (m : Mat4) (i : Nat) : Mat4 :=
  scale (translate (rotate G m (-(radians G (90 * (i : ℚ) + 45))) ⟨0, 1, 0⟩)
    ⟨45 / 100, -(1 / 10), 0⟩) frameArmScale

/-- The draw call of `display_arm`. -/
def armCalls (G : GLM) (gl : Uniforms) (dm : Nat) (m : Mat4) (i : Nat) : List DrawCall :=
  [partCall gl dm (Part.arm i) Mesh.cube (armModel G m i) frameReflect frameColour]

/-- The draw calls of `display_strut_pair`. -/
def strutPairCalls (G : GLM) (gl : Uniforms) (dm : Nat) (m : Mat4) (i j : Nat) :
    List DrawCall :=
  [partCall gl dm (Part.strut i j true) Mesh.cube
     (scale (translate (rotate G m (-(radians G (120 * (j : ℚ)))) ⟨0, 1, 0⟩)
       ⟨15 / 1000, 0, 0⟩) motorStrutsScale) motorReflect motorColour,
   partCall gl dm (Part.strut i j false) Mesh.cube
     (scale (translate (rotate G m (-(radians G (120 * (j : ℚ)))) ⟨0, 1, 0⟩)
       ⟨-(15 / 1000), 0, 0⟩) motorStrutsScale) motorReflect motorColour]

/-- The depths found by the pops of `display_strut_pair`, started at depth `d`. -/
def strutPairPops (d : Nat) : List Nat := [d + 2, d + 2, d + 1]

/-- The matrix after the spin of motor `i`, from the top `m` and the value
`angle` of `motorAngle` before the increment. -/
def spinModel (G : GLM) (m : Mat4) (i : Nat) (angle : ℚ) : Mat4 :=
  if i % 2 = 0 then rotate G m (-(radians G angle)) ⟨0, 1, 0⟩
  else rotate G m (radians G angle) ⟨0, 1, 0⟩

/-- The model matrix of the shaft, from the matrix `m` after the spin. -/
def shaftModel (G : GLM) (m : Mat4) : Mat4 :=
  rotate G (scale (translate m ⟨0, 6 / 100, 0⟩) motorShaftScale) (-(radians G 90)) ⟨1, 0, 0⟩

/-- The model matrix of the bell, from the matrix `m` after the spin. -/
def bellModel (G : GLM) (m : Mat4) : Mat4 :=
  rotate G (scale m motorBellScale) (-(radians G 90)) ⟨1, 0, 0⟩

/-- The draw calls of `display_moving`, where `angle` is the value of
`motorAngle` when the block starts. -/
def movingCalls (G : GLM) (gl : Uniforms) (dm : Nat) (m : Mat4) (i : Nat) (angle : ℚ) :
    List DrawCall :=
  strutPairCalls G gl dm (translate (spinModel G m i angle) ⟨0, 42 / 1000, 0⟩) i 0 ++
  strutPairCalls G gl dm (translate (spinModel G m i angle) ⟨0, 42 / 1000, 0⟩) i 1 ++
  strutPairCalls G gl dm (translate (spinModel G m i angle) ⟨0, 42 / 1000, 0⟩) i 2 ++
  [partCall gl dm (Part.shaft i) Mesh.motorShaft (shaftModel G (spinModel G m i angle))
     motorReflect motorColour,
   partCall gl dm (Part.bell i) Mesh.motorBell (bellModel G (spinModel G m i angle))
     motorReflect motorColour]

/-- The depths found by the pops of `display_moving`, started at depth `d`. -/
def movingPops (d : Nat) : List Nat :=
  strutPairPops (d + 2) ++ strutPairPops (d + 2) ++ strutPairPops (d + 2) ++
  [d + 2, d + 2, d + 2, d + 1]

/-- The matrix at the foot of motor `i`, from the top `m`. -/
def motorModel (G : GLM) (m : Mat4) (i : Nat) : Mat4 :=
  translate (rotate G m (-(radians G (90 * (i : ℚ) + 45))) ⟨0, 1, 0⟩)
    ⟨77 / 100, -(2 / 100), 0⟩

/-- The model matrix of the stator, from the matrix `m` at the foot of the
motor. -/
def statorModel (G : GLM) (m : Mat4) : Mat4 :=
  rotate G (scale (translate m ⟨0, -(15 / 1000), 0⟩) motorStatorScale) (-(radians G 90))
    ⟨1, 0, 0⟩

/-- The draw calls of `display_motor`, where `angle` is the value of `motorAngle`
when the block starts. -/
def motorCalls (G : GLM) (gl : Uniforms) (dm : Nat) (m : Mat4) (i : Nat) (angle : ℚ) :
    List DrawCall :=
  movingCalls G gl dm (motorModel G m i) i angle ++
  [partCall gl dm (Part.baseLong i) Mesh.cube
     (scale (translate (motorModel G m i) ⟨0, -(6 / 100), 0⟩) ⟨12 / 100, 1 / 100, 4 / 100⟩)
     motorReflect motorColour,
   partCall gl dm (Part.baseCross i) Mesh.cube
     (scale (translate (motorModel G m i) ⟨0, -(6 / 100), 0⟩) ⟨4 / 100, 1 / 100, 12 / 100⟩)
     motorReflect motorColour,
   partCall gl dm (Part.stator i) Mesh.motorStator (statorModel G (motorModel G m i))
     motorStatorReflect motorStatorColour]

/-- The depths found by the pops of `display_motor`, started at depth `d`. -/
def motorPops (d : Nat) : List Nat :=
  movingPops (d + 2) ++ [d + 3, d + 3, d + 3, d + 2, d + 1]

/-- The model matrix of the standoff at offset `v`, from the top `m`. -/
def standoffModel (G : GLM) (m : Mat4) (v : Vec3) : Mat4 :=
  rotate G (scale (translate m v) standoffScale) (-(radians G 90)) ⟨1, 0, 0⟩

/-- The offsets of the eight standoffs, in the order of the source. -/
def standoffOffset : Nat → Vec3
  | 0 => ⟨45 / 100, 0, 12 / 100⟩
  | 1 => ⟨2 / 10, 0, 12 / 100⟩
  | 2 => ⟨-(2 / 10), 0, 12 / 100⟩
  | 3 => ⟨-(45 / 100), 0, 12 / 100⟩
  | 4 => ⟨45 / 100, 0, -(12 / 100)⟩
  | 5 => ⟨2 / 10, 0, -(12 / 100)⟩
  | 6 => ⟨-(2 / 10), 0, -(12 / 100)⟩
  | _ => ⟨-(45 / 100), 0, -(12 / 100)⟩

/-- The draw call of standoff `k`. -/
def standoffCall (G : GLM) (gl : Uniforms) (dm : Nat) (m : Mat4) (k : Nat) : DrawCall :=
  partCall gl dm (Part.standoff k) Mesh.tube (standoffModel G m (standoffOffset k))
    standoffReflect standoffColour

/-- The draw calls of `display_standoffs`. -/
def standoffCalls (G : GLM) (gl : Uniforms) (dm : Nat) (m : Mat4) : List DrawCall :=
  [standoffCall G gl dm m 0, standoffCall G gl dm m 1, standoffCall G gl dm m 2,
   standoffCall G gl dm m 3, standoffCall G gl dm m 4, standoffCall G gl dm m 5,
   standoffCall G gl dm m 6, standoffCall G gl dm m 7]

/-- The draw calls of `display_drone`, where `angle` is the value of `motorAngle`
when the block starts. -/
def droneCalls (G : GLM) (sc : Scene) (gl : Uniforms) (m : Mat4) : List DrawCall :=
  platesCalls gl sc.drawmode (translate m ⟨sc.x, sc.y, sc.z⟩) ++
  (armCalls G gl sc.drawmode (translate m ⟨sc.x, sc.y, sc.z⟩) 0 ++
   armCalls G gl sc.drawmode (translate m ⟨sc.x, sc.y, sc.z⟩) 1 ++
   armCalls G gl sc.drawmode (translate m ⟨sc.x, sc.y, sc.z⟩) 2 ++
   armCalls G gl sc.drawmode (translate m ⟨sc.x, sc.y, sc.z⟩) 3) ++
  (motorCalls G gl sc.drawmode (translate m ⟨sc.x, sc.y, sc.z⟩) 0 sc.motorAngle ++
   motorCalls G gl sc.drawmode (translate m ⟨sc.x, sc.y, sc.z⟩) 1 (sc.motorAngle + 1) ++
   motorCalls G gl sc.drawmode (translate m ⟨sc.x, sc.y, sc.z⟩) 2 (sc.motorAngle + 1 + 1) ++
   motorCalls G gl sc.drawmode (translate m ⟨sc.x, sc.y, sc.z⟩) 3
     (sc.motorAngle + 1 + 1 + 1)) ++
  standoffCalls G gl sc.drawmode (translate m ⟨sc.x, sc.y, sc.z⟩)

/-- The depths found by the pops of `display_drone`, started at depth `d`. -/
def dronePops (d : Nat) : List Nat :=
  [d + 2, d + 2] ++ [d + 2, d + 2, d + 2, d + 2] ++
  (motorPops (d + 1) ++ motorPops (d + 1) ++ motorPops (d + 1) ++ motorPops (d + 1)) ++
  [d + 2] ++ [d + 2, d + 2, d + 2, d + 2, d + 2, d + 2, d + 2, d + 2] ++ [d + 1]

/-- The matrix that lines 224-227 leave on top of the stack, from the top `m`. -/
def globalModel (G : GLM) (sc : Scene) (m : Mat4) : Mat4 :=
  rotate G (rotate G (rotate G (scale m ⟨sc.model_scale, sc.model_scale, sc.model_scale⟩)
    (-(radians G sc.angle_x)) ⟨1, 0, 0⟩) (-(radians G sc.angle_y)) ⟨0, 1, 0⟩)
    (-(radians G sc.angle_z)) ⟨0, 0, 1⟩

/-- The uniform values after lines 197-202. -/
def frameUniforms (sc : Scene) (gl : Uniforms) : Uniforms :=
  { gl with colourMode := sc.colourmode, attenuationMode := sc.attenuationmode,
            numLights := 1 }

/-- The uniform values after `display_light`. -/
def lightUniforms (sc : Scene) (gl : Uniforms) : Uniforms :=
  ((frameUniforms sc gl).set_model (lightModel sc 1)).set_emitMode 0

/-- The draw calls of one call of `display`, in order. -/
def frameCalls (G : GLM) (sc : Scene) (gl : Uniforms) : List DrawCall :=
  lightCalls sc (frameUniforms sc gl) 1 ++
  droneCalls G sc (lightUniforms sc gl) (globalModel G sc 1)

/-- The depths found by the pops of one call of `display`, in order. -/
def framePops : List Nat := [2] ++ dronePops 1

/-- The globals when `display` returns. -/
def frameScene (sc : Scene) : Scene :=
  { sc with
    numLights := 1
    emitmode := 0
    motorAngle := sc.motorAngle + 1 + 1 + 1 + 1
    angle_x := sc.angle_x + sc.angle_inc_x
    angle_y := sc.angle_y + sc.angle_inc_y
    angle_z := sc.angle_z + sc.angle_inc_z }

/-- The value of `motorAngle` that motor `i` reads: the value at the start of the
frame after `i` increments. -/
def motorAngleAt (sc : Scene) : Nat → ℚ
  | 0 => sc.motorAngle
  | i + 1 => motorAngleAt sc i + 1

/-- The local transform of standoff `k` in the specification's terms: its offset,
the standoff scale and the rotation about x by -90 degrees. -/
def standoffLocal (G : GLM) (k : Nat) : Mat4 :=
  matT (standoffOffset k) * matS standoffScale * matRx G (-(radians G 90))

/-! ## The GLM transforms as matrix products -/

/-- The function `glm::translate` post-multiplies by T(v). -/
theorem translate_eq_mul (m : Mat4) (v : Vec3) : translate m v = m * matT v := by
  ext i j
  fin_cases j <;>
    simp [translate, matT, Matrix.mul_apply, Fin.sum_univ_four, Matrix.vecHead, Matrix.vecTail]

/-- The function `glm::scale` post-multiplies by S(v). -/
theorem scale_eq_mul (m : Mat4) (v : Vec3) : scale m v = m * matS v := by
  ext i j
  fin_cases j <;>
    simp [scale, matS, Matrix.mul_apply, Fin.sum_univ_four, Matrix.vecHead, Matrix.vecTail]

/-- The function `glm::rotate` about the axis (1,0,0) post-multiplies by Rx. -/
theorem rotate_x_eq_mul (G : GLM) (m : Mat4) (a : ℚ) :
    rotate G m a ⟨1, 0, 0⟩ = m * matRx G a := by
  ext i j
  fin_cases j <;>
    simp [rotate, normalize, matRx, Matrix.mul_apply, Fin.sum_univ_four, Matrix.vecHead,
      Matrix.vecTail, G.inversesqrt_one]

/-- The function `glm::rotate` about the axis (0,1,0) post-multiplies by Ry. -/
theorem rotate_y_eq_mul (G : GLM) (m : Mat4) (a : ℚ) :
    rotate G m a ⟨0, 1, 0⟩ = m * matRy G a := by
  ext i j
  fin_cases j <;>
    simp [rotate, normalize, matRy, Matrix.mul_apply, Fin.sum_univ_four, Matrix.vecHead,
      Matrix.vecTail, G.inversesqrt_one]

/-- The function `glm::rotate` about the axis (0,0,1) post-multiplies by Rz. -/
theorem rotate_z_eq_mul (G : GLM) (m : Mat4) (a : ℚ) :
    rotate G m a ⟨0, 0, 1⟩ = m * matRz G a := by
  ext i j
  fin_cases j <;>
    simp [rotate, normalize, matRz, Matrix.mul_apply, Fin.sum_univ_four, Matrix.vecHead,
      Matrix.vecTail, G.inversesqrt_one]

/-! ## Running the statements of `display` -/

section run
variable (G : GLM) (sc : Scene) (gl : Uniforms) (m : Mat4) (r l : List Mat4)
  (c : List DrawCall) (p : List Nat)

theorem Frame.seq_nil (f : Frame) : Frame.seq [] f = some f := rfl

theorem Frame.seq_cons (s : Frame → Option Frame) (rest : List (Frame → Option Frame))
    (f : Frame) : Frame.seq (s :: rest) f = (s f).bind (Frame.seq rest) := rfl

theorem Frame.pushTop_mk :
    Frame.pushTop ⟨sc, gl, m :: r, c, p⟩ = some ⟨sc, gl, m :: m :: r, c, p⟩ := rfl

theorem Frame.pop_mk :
    Frame.pop ⟨sc, gl, m :: r, c, p⟩ = some ⟨sc, gl, r, c, p ++ [r.length + 1]⟩ := rfl

theorem Frame.translateTop_mk (v : Vec3) :
    Frame.translateTop v ⟨sc, gl, m :: r, c, p⟩ = some ⟨sc, gl, translate m v :: r, c, p⟩ :=
  rfl

theorem Frame.scaleTop_mk (v : Vec3) :
    Frame.scaleTop v ⟨sc, gl, m :: r, c, p⟩ = some ⟨sc, gl, scale m v :: r, c, p⟩ := rfl

theorem Frame.rotateTop_mk (a : ℚ) (v : Vec3) :
    Frame.rotateTop G a v ⟨sc, gl, m :: r, c, p⟩ = some ⟨sc, gl, rotate G m a v :: r, c, p⟩ :=
  rfl

theorem Frame.assign_mk (g : Scene → Scene) :
    Frame.assign g ⟨sc, gl, l, c, p⟩ = some ⟨g sc, gl, l, c, p⟩ := rfl

theorem Frame.uniformModel_mk :
    Frame.uniformModel ⟨sc, gl, m :: r, c, p⟩ =
      some ⟨sc, gl.set_model m, m :: r, c, p⟩ := rfl

theorem Frame.uniformColourMode_mk :
    Frame.uniformColourMode ⟨sc, gl, l, c, p⟩ =
      some ⟨sc, gl.set_colourMode sc.colourmode, l, c, p⟩ := rfl

theorem Frame.uniformAttenuationMode_mk :
    Frame.uniformAttenuationMode ⟨sc, gl, l, c, p⟩ =
      some ⟨sc, gl.set_attenuationMode sc.attenuationmode, l, c, p⟩ := rfl

theorem Frame.uniformEmitMode_mk :
    Frame.uniformEmitMode ⟨sc, gl, l, c, p⟩ =
      some ⟨sc, gl.set_emitMode sc.emitmode, l, c, p⟩ := rfl

theorem Frame.uniformNumLights_mk :
    Frame.uniformNumLights ⟨sc, gl, l, c, p⟩ =
      some ⟨sc, gl.set_numLights sc.numLights, l, c, p⟩ := rfl

theorem Frame.uniformReflectiveness_mk (x : ℚ) :
    Frame.uniformReflectiveness x ⟨sc, gl, l, c, p⟩ =
      some ⟨sc, gl.set_reflectiveness x, l, c, p⟩ := rfl

theorem Frame.uniformColourOverride_mk (x : Vec4) :
    Frame.uniformColourOverride x ⟨sc, gl, l, c, p⟩ =
      some ⟨sc, gl.set_colourOverride x, l, c, p⟩ := rfl

theorem Frame.draw_mk (part : Part) (mesh : Mesh) :
    Frame.draw part mesh ⟨sc, gl, l, c, p⟩ =
      some ⟨sc, gl, l, c ++ [⟨part, mesh, sc.drawmode, gl⟩], p⟩ := rfl

theorem forLoop_three (body : Nat → Frame → Option Frame) (f : Frame) :
    forLoop 3 body f =
      (body 0 f).bind fun f => (body 1 f).bind fun f => (body 2 f).bind fun f => some f :=
  rfl

theorem forLoop_four (body : Nat → Frame → Option Frame) (f : Frame) :
    forLoop 4 body f =
      (body 0 f).bind fun f => (body 1 f).bind fun f => (body 2 f).bind fun f =>
        (body 3 f).bind fun f => some f :=
  rfl

/-- A loop of three rounds inside a sequence is the sequence of its rounds. -/
theorem Frame.seq_forLoop_three (body : Nat → Frame → Option Frame)
    (rest : List (Frame → Option Frame)) (f : Frame) :
    Frame.seq (forLoop 3 body :: rest) f =
      Frame.seq (body 0 :: body 1 :: body 2 :: rest) f := by
  simp only [Frame.seq_cons, forLoop_three]
  cases body 0 f with
  | none => rfl
  | some f0 =>
    simp only [Option.some_bind]
    cases body 1 f0 with
    | none => rfl
    | some f1 =>
      simp only [Option.some_bind]
      cases body 2 f1 with
      | none => rfl
      | some f2 => rfl

/-- A loop of four rounds inside a sequence is the sequence of its rounds. -/
theorem Frame.seq_forLoop_four (body : Nat → Frame → Option Frame)
    (rest : List (Frame → Option Frame)) (f : Frame) :
    Frame.seq (forLoop 4 body :: rest) f =
      Frame.seq (body 0 :: body 1 :: body 2 :: body 3 :: rest) f := by
  simp only [Frame.seq_cons, forLoop_four]
  cases body 0 f with
  | none => rfl
  | some f0 =>
    simp only [Option.some_bind]
    cases body 1 f0 with
    | none => rfl
    | some f1 =>
      simp only [Option.some_bind]
      cases body 2 f1 with
      | none => rfl
      | some f2 =>
        simp only [Option.some_bind]
        cases body 3 f2 with
        | none => rfl
        | some f3 => rfl

theorem display_light_run :
    display_light ⟨sc, gl, m :: r, c, p⟩ =
      some ⟨(sc.set_emitmode 1).set_emitmode 0,
        (gl.set_model (lightModel sc m)).set_emitMode 0, m :: r,
        c ++ lightCalls sc gl m, p ++ [r.length + 2]⟩ := by
  unfold display_light
  repeat first
    | with_reducible rw [Frame.seq_nil]
    | with_reducible rw [Frame.seq_forLoop_three]
    | with_reducible rw [Frame.seq_forLoop_four]
    | with_reducible rw [Frame.seq_cons]
    | with_reducible rw [Frame.pushTop_mk]
    | with_reducible rw [Frame.pop_mk]
    | with_reducible rw [Frame.translateTop_mk]
    | with_reducible rw [Frame.scaleTop_mk]
    | with_reducible rw [Frame.rotateTop_mk]
    | with_reducible rw [Frame.assign_mk]
    | with_reducible rw [Frame.uniformModel_mk]
    | with_reducible rw [Frame.uniformColourMode_mk]
    | with_reducible rw [Frame.uniformAttenuationMode_mk]
    | with_reducible rw [Frame.uniformEmitMode_mk]
    | with_reducible rw [Frame.uniformNumLights_mk]
    | with_reducible rw [Frame.uniformReflectiveness_mk]
    | with_reducible rw [Frame.uniformColourOverride_mk]
    | with_reducible rw [Frame.draw_mk]
    | with_reducible rw [Option.some_bind]
  simp only [List.append_assoc, List.cons_append, List.nil_append, List.length_cons,
    List.length_nil, Nat.add_assoc, Nat.reduceAdd, Uniforms.forPart,
    Uniforms.set_model, Uniforms.set_colourMode, Uniforms.set_emitMode,
    Uniforms.set_attenuationMode, Uniforms.set_numLights, Uniforms.set_reflectiveness,
    Uniforms.set_colourOverride, frameUniforms, lightUniforms, frameScene,
    Scene.set_numLights, Scene.set_emitmode, Scene.set_motorAngle, Scene.set_angle_x,
    Scene.set_angle_y, Scene.set_angle_z, zero_add, partCall, lightCalls,
    platesCalls, armCalls, strutPairCalls, strutPairPops, movingCalls, movingPops, motorCalls,
    motorPops, standoffCall, standoffCalls, droneCalls, dronePops, frameCalls, framePops]
  try rfl

theorem display_plates_run :
    display_plates ⟨sc, gl, m :: r, c, p⟩ =
      some ⟨sc, gl.forPart (scale (translate m ⟨0, 85 / 1000, 0⟩) framePlateScale)
          frameReflect frameColour, m :: r,
        c ++ platesCalls gl sc.drawmode m, p ++ [r.length + 2, r.length + 2]⟩ := by
  unfold display_plates
  repeat first
    | with_reducible rw [Frame.seq_nil]
    | with_reducible rw [Frame.seq_forLoop_three]
    | with_reducible rw [Frame.seq_forLoop_four]
    | with_reducible rw [Frame.seq_cons]
    | with_reducible rw [Frame.pushTop_mk]
    | with_reducible rw [Frame.pop_mk]
    | with_reducible rw [Frame.translateTop_mk]
    | with_reducible rw [Frame.scaleTop_mk]
    | with_reducible rw [Frame.rotateTop_mk]
    | with_reducible rw [Frame.assign_mk]
    | with_reducible rw [Frame.uniformModel_mk]
    | with_reducible rw [Frame.uniformColourMode_mk]
    | with_reducible rw [Frame.uniformAttenuationMode_mk]
    | with_reducible rw [Frame.uniformEmitMode_mk]
    | with_reducible rw [Frame.uniformNumLights_mk]
    | with_reducible rw [Frame.uniformReflectiveness_mk]
    | with_reducible rw [Frame.uniformColourOverride_mk]
    | with_reducible rw [Frame.draw_mk]
    | with_reducible rw [display_light_run]
    | with_reducible rw [Option.some_bind]
  simp only [List.append_assoc, List.cons_append, List.nil_append, List.length_cons,
    List.length_nil, Nat.add_assoc, Nat.reduceAdd, Uniforms.forPart,
    Uniforms.set_model, Uniforms.set_colourMode, Uniforms.set_emitMode,
    Uniforms.set_attenuationMode, Uniforms.set_numLights, Uniforms.set_reflectiveness,
    Uniforms.set_colourOverride, frameUniforms, lightUniforms, frameScene,
    Scene.set_numLights, Scene.set_emitmode, Scene.set_motorAngle, Scene.set_angle_x,
    Scene.set_angle_y, Scene.set_angle_z, zero_add, partCall, lightCalls,
    platesCalls, armCalls, strutPairCalls, strutPairPops, movingCalls, movingPops, motorCalls,
    motorPops, standoffCall, standoffCalls, droneCalls, dronePops, frameCalls, framePops]
  try rfl

theorem display_arm_run (i : Nat) :
    display_arm G i ⟨sc, gl, m :: r, c, p⟩ =
      some ⟨sc, gl.forPart (armModel G m i) frameReflect frameColour, m :: r,
        c ++ armCalls G gl sc.drawmode m i, p ++ [r.length + 2]⟩ := by
  unfold display_arm
  repeat first
    | with_reducible rw [Frame.seq_nil]
    | with_reducible rw [Frame.seq_forLoop_three]
    | with_reducible rw [Frame.seq_forLoop_four]
    | with_reducible rw [Frame.seq_cons]
    | with_reducible rw [Frame.pushTop_mk]
    | with_reducible rw [Frame.pop_mk]
    | with_reducible rw [Frame.translateTop_mk]
    | with_reducible rw [Frame.scaleTop_mk]
    | with_reducible rw [Frame.rotateTop_mk]
    | with_reducible rw [Frame.assign_mk]
    | with_reducible rw [Frame.uniformModel_mk]
    | with_reducible rw [Frame.uniformColourMode_mk]
    | with_reducible rw [Frame.uniformAttenuationMode_mk]
    | with_reducible rw [Frame.uniformEmitMode_mk]
    | with_reducible rw [Frame.uniformNumLights_mk]
    | with_reducible rw [Frame.uniformReflectiveness_mk]
    | with_reducible rw [Frame.uniformColourOverride_mk]
    | with_reducible rw [Frame.draw_mk]
    | with_reducible rw [display_light_run]
    | with_reducible rw [display_plates_run]
    | with_reducible rw [Option.some_bind]
  simp only [List.append_assoc, List.cons_append, List.nil_append, List.length_cons,
    List.length_nil, Nat.add_assoc, Nat.reduceAdd, Uniforms.forPart,
    Uniforms.set_model, Uniforms.set_colourMode, Uniforms.set_emitMode,
    Uniforms.set_attenuationMode, Uniforms.set_numLights, Uniforms.set_reflectiveness,
    Uniforms.set_colourOverride, frameUniforms, lightUniforms, frameScene,
    Scene.set_numLights, Scene.set_emitmode, Scene.set_motorAngle, Scene.set_angle_x,
    Scene.set_angle_y, Scene.set_angle_z, zero_add, partCall, lightCalls,
    platesCalls, armCalls, strutPairCalls, strutPairPops, movingCalls, movingPops, motorCalls,
    motorPops, standoffCall, standoffCalls, droneCalls, dronePops, frameCalls, framePops]
  try rfl

theorem display_strut_pair_run (i j : Nat) :
    display_strut_pair G i j ⟨sc, gl, m :: r, c, p⟩ =
      some ⟨sc, gl.forPart
          (scale (translate (rotate G m (-(radians G (120 * (j : ℚ)))) ⟨0, 1, 0⟩)
            ⟨-(15 / 1000), 0, 0⟩) motorStrutsScale) motorReflect motorColour, m :: r,
        c ++ strutPairCalls G gl sc.drawmode m i j, p ++ strutPairPops (r.length + 1)⟩ := by
  unfold display_strut_pair
  repeat first
    | with_reducible rw [Frame.seq_nil]
    | with_reducible rw [Frame.seq_forLoop_three]
    | with_reducible rw [Frame.seq_forLoop_four]
    | with_reducible rw [Frame.seq_cons]
    | with_reducible rw [Frame.pushTop_mk]
    | with_reducible rw [Frame.pop_mk]
    | with_reducible rw [Frame.translateTop_mk]
    | with_reducible rw [Frame.scaleTop_mk]
    | with_reducible rw [Frame.rotateTop_mk]
    | with_reducible rw [Frame.assign_mk]
    | with_reducible rw [Frame.uniformModel_mk]
    | with_reducible rw [Frame.uniformColourMode_mk]
    | with_reducible rw [Frame.uniformAttenuationMode_mk]
    | with_reducible rw [Frame.uniformEmitMode_mk]
    | with_reducible rw [Frame.uniformNumLights_mk]
    | with_reducible rw [Frame.uniformReflectiveness_mk]
    | with_reducible rw [Frame.uniformColourOverride_mk]
    | with_reducible rw [Frame.draw_mk]
    | with_reducible rw [display_light_run]
    | with_reducible rw [display_plates_run]
    | with_reducible rw [display_arm_run]
    | with_reducible rw [Option.some_bind]
  simp only [List.append_assoc, List.cons_append, List.nil_append, List.length_cons,
    List.length_nil, Nat.add_assoc, Nat.reduceAdd, Uniforms.forPart,
    Uniforms.set_model, Uniforms.set_colourMode, Uniforms.set_emitMode,
    Uniforms.set_attenuationMode, Uniforms.set_numLights, Uniforms.set_reflectiveness,
    Uniforms.set_colourOverride, frameUniforms, lightUniforms, frameScene,
    Scene.set_numLights, Scene.set_emitmode, Scene.set_motorAngle, Scene.set_angle_x,
    Scene.set_angle_y, Scene.set_angle_z, zero_add, partCall, lightCalls,
    platesCalls, armCalls, strutPairCalls, strutPairPops, movingCalls, movingPops, motorCalls,
    motorPops, standoffCall, standoffCalls, droneCalls, dronePops, frameCalls, framePops]
  try rfl

theorem display_spin_run (i : Nat) :
    display_spin G i ⟨sc, gl, m :: r, c, p⟩ =
      some ⟨sc.set_motorAngle (sc.motorAngle + 1), gl,
        spinModel G m i sc.motorAngle :: r, c, p⟩ := by
  unfold display_spin spinModel
  by_cases h : i % 2 = 0
  · simp only [h, if_true]; rfl
  · simp only [h, if_false]; rfl

theorem display_moving_run (i : Nat) :
    display_moving G i ⟨sc, gl, m :: r, c, p⟩ =
      some ⟨sc.set_motorAngle (sc.motorAngle + 1),
        gl.forPart (bellModel G (spinModel G m i sc.motorAngle)) motorReflect motorColour,
        m :: r, c ++ movingCalls G gl sc.drawmode m i sc.motorAngle,
        p ++ movingPops (r.length + 1)⟩ := by
  unfold display_moving
  repeat first
    | with_reducible rw [Frame.seq_nil]
    | with_reducible rw [Frame.seq_forLoop_three]
    | with_reducible rw [Frame.seq_forLoop_four]
    | with_reducible rw [Frame.seq_cons]
    | with_reducible rw [Frame.pushTop_mk]
    | with_reducible rw [Frame.pop_mk]
    | with_reducible rw [Frame.translateTop_mk]
    | with_reducible rw [Frame.scaleTop_mk]
    | with_reducible rw [Frame.rotateTop_mk]
    | with_reducible rw [Frame.assign_mk]
    | with_reducible rw [Frame.uniformModel_mk]
    | with_reducible rw [Frame.uniformColourMode_mk]
    | with_reducible rw [Frame.uniformAttenuationMode_mk]
    | with_reducible rw [Frame.uniformEmitMode_mk]
    | with_reducible rw [Frame.uniformNumLights_mk]
    | with_reducible rw [Frame.uniformReflectiveness_mk]
    | with_reducible rw [Frame.uniformColourOverride_mk]
    | with_reducible rw [Frame.draw_mk]
    | with_reducible rw [display_light_run]
    | with_reducible rw [display_plates_run]
    | with_reducible rw [display_arm_run]
    | with_reducible rw [display_strut_pair_run]
    | with_reducible rw [display_spin_run]
    | with_reducible rw [Option.some_bind]
  simp only [List.append_assoc, List.cons_append, List.nil_append, List.length_cons,
    List.length_nil, Nat.add_assoc, Nat.reduceAdd, Uniforms.forPart,
    Uniforms.set_model, Uniforms.set_colourMode, Uniforms.set_emitMode,
    Uniforms.set_attenuationMode, Uniforms.set_numLights, Uniforms.set_reflectiveness,
    Uniforms.set_colourOverride, frameUniforms, lightUniforms, frameScene,
    Scene.set_numLights, Scene.set_emitmode, Scene.set_motorAngle, Scene.set_angle_x,
    Scene.set_angle_y, Scene.set_angle_z, zero_add, partCall, lightCalls,
    platesCalls, armCalls, strutPairCalls, strutPairPops, movingCalls, movingPops, motorCalls,
    motorPops, standoffCall, standoffCalls, droneCalls, dronePops, frameCalls, framePops]
  try rfl

theorem display_motor_run (i : Nat) :
    display_motor G i ⟨sc, gl, m :: r, c, p⟩ =
      some ⟨sc.set_motorAngle (sc.motorAngle + 1),
        gl.forPart (statorModel G (motorModel G m i)) motorStatorReflect motorStatorColour,
        m :: r, c ++ motorCalls G gl sc.drawmode m i sc.motorAngle,
        p ++ motorPops (r.length + 1)⟩ := by
  unfold display_motor
  repeat first
    | with_reducible rw [Frame.seq_nil]
    | with_reducible rw [Frame.seq_forLoop_three]
    | with_reducible rw [Frame.seq_forLoop_four]
    | with_reducible rw [Frame.seq_cons]
    | with_reducible rw [Frame.pushTop_mk]
    | with_reducible rw [Frame.pop_mk]
    | with_reducible rw [Frame.translateTop_mk]
    | with_reducible rw [Frame.scaleTop_mk]
    | with_reducible rw [Frame.rotateTop_mk]
    | with_reducible rw [Frame.assign_mk]
    | with_reducible rw [Frame.uniformModel_mk]
    | with_reducible rw [Frame.uniformColourMode_mk]
    | with_reducible rw [Frame.uniformAttenuationMode_mk]
    | with_reducible rw [Frame.uniformEmitMode_mk]
    | with_reducible rw [Frame.uniformNumLights_mk]
    | with_reducible rw [Frame.uniformReflectiveness_mk]
    | with_reducible rw [Frame.uniformColourOverride_mk]
    | with_reducible rw [Frame.draw_mk]
    | with_reducible rw [display_light_run]
    | with_reducible rw [display_plates_run]
    | with_reducible rw [display_arm_run]
    | with_reducible rw [display_strut_pair_run]
    | with_reducible rw [display_spin_run]
    | with_reducible rw [display_moving_run]
    | with_reducible rw [Option.some_bind]
  simp only [List.append_assoc, List.cons_append, List.nil_append, List.length_cons,
    List.length_nil, Nat.add_assoc, Nat.reduceAdd, Uniforms.forPart,
    Uniforms.set_model, Uniforms.set_colourMode, Uniforms.set_emitMode,
    Uniforms.set_attenuationMode, Uniforms.set_numLights, Uniforms.set_reflectiveness,
    Uniforms.set_colourOverride, frameUniforms, lightUniforms, frameScene,
    Scene.set_numLights, Scene.set_emitmode, Scene.set_motorAngle, Scene.set_angle_x,
    Scene.set_angle_y, Scene.set_angle_z, zero_add, partCall, lightCalls,
    platesCalls, armCalls, strutPairCalls, strutPairPops, movingCalls, movingPops, motorCalls,
    motorPops, standoffCall, standoffCalls, droneCalls, dronePops, frameCalls, framePops]
  try rfl

set_option maxRecDepth 10000 in
theorem display_standoffs_run :
    display_standoffs G ⟨sc, gl, m :: r, c, p⟩ =
      some ⟨sc, gl.forPart (standoffModel G m (standoffOffset 7)) standoffReflect
          standoffColour, m :: r, c ++ standoffCalls G gl sc.drawmode m,
        p ++ [r.length + 2, r.length + 2, r.length + 2, r.length + 2, r.length + 2,
          r.length + 2, r.length + 2, r.length + 2]⟩ := by
  unfold display_standoffs
  repeat first
    | with_reducible rw [Frame.seq_nil]
    | with_reducible rw [Frame.seq_forLoop_three]
    | with_reducible rw [Frame.seq_forLoop_four]
    | with_reducible rw [Frame.seq_cons]
    | with_reducible rw [Frame.pushTop_mk]
    | with_reducible rw [Frame.pop_mk]
    | with_reducible rw [Frame.translateTop_mk]
    | with_reducible rw [Frame.scaleTop_mk]
    | with_reducible rw [Frame.rotateTop_mk]
    | with_reducible rw [Frame.assign_mk]
    | with_reducible rw [Frame.uniformModel_mk]
    | with_reducible rw [Frame.uniformColourMode_mk]
    | with_reducible rw [Frame.uniformAttenuationMode_mk]
    | with_reducible rw [Frame.uniformEmitMode_mk]
    | with_reducible rw [Frame.uniformNumLights_mk]
    | with_reducible rw [Frame.uniformReflectiveness_mk]
    | with_reducible rw [Frame.uniformColourOverride_mk]
    | with_reducible rw [Frame.draw_mk]
    | with_reducible rw [display_light_run]
    | with_reducible rw [display_plates_run]
    | with_reducible rw [display_arm_run]
    | with_reducible rw [display_strut_pair_run]
    | with_reducible rw [display_spin_run]
    | with_reducible rw [display_moving_run]
    | with_reducible rw [display_motor_run]
    | with_reducible rw [Option.some_bind]
  simp only [List.append_assoc, List.cons_append, List.nil_append, List.length_cons,
    List.length_nil, Nat.add_assoc, Nat.reduceAdd, Uniforms.forPart,
    Uniforms.set_model, Uniforms.set_colourMode, Uniforms.set_emitMode,
    Uniforms.set_attenuationMode, Uniforms.set_numLights, Uniforms.set_reflectiveness,
    Uniforms.set_colourOverride, frameUniforms, lightUniforms, frameScene,
    Scene.set_numLights, Scene.set_emitmode, Scene.set_motorAngle, Scene.set_angle_x,
    Scene.set_angle_y, Scene.set_angle_z, zero_add, partCall, lightCalls,
    platesCalls, armCalls, strutPairCalls, strutPairPops, movingCalls, movingPops, motorCalls,
    motorPops, standoffCall, standoffCalls, droneCalls, dronePops, frameCalls, framePops]
  try rfl

theorem display_drone_run :
    display_drone G ⟨sc, gl, m :: r, c, p⟩ =
      some ⟨sc.set_motorAngle (sc.motorAngle + 1 + 1 + 1 + 1),
        gl.forPart (standoffModel G (translate m ⟨sc.x, sc.y, sc.z⟩) (standoffOffset 7))
          standoffReflect standoffColour,
        m :: r, c ++ droneCalls G sc gl m, p ++ dronePops (r.length + 1)⟩ := by
  unfold display_drone
  repeat first
    | with_reducible rw [Frame.seq_nil]
    | with_reducible rw [Frame.seq_forLoop_three]
    | with_reducible rw [Frame.seq_forLoop_four]
    | with_reducible rw [Frame.seq_cons]
    | with_reducible rw [Frame.pushTop_mk]
    | with_reducible rw [Frame.pop_mk]
    | with_reducible rw [Frame.translateTop_mk]
    | with_reducible rw [Frame.scaleTop_mk]
    | with_reducible rw [Frame.rotateTop_mk]
    | with_reducible rw [Frame.assign_mk]
    | with_reducible rw [Frame.uniformModel_mk]
    | with_reducible rw [Frame.uniformColourMode_mk]
    | with_reducible rw [Frame.uniformAttenuationMode_mk]
    | with_reducible rw [Frame.uniformEmitMode_mk]
    | with_reducible rw [Frame.uniformNumLights_mk]
    | with_reducible rw [Frame.uniformReflectiveness_mk]
    | with_reducible rw [Frame.uniformColourOverride_mk]
    | with_reducible rw [Frame.draw_mk]
    | with_reducible rw [display_light_run]
    | with_reducible rw [display_plates_run]
    | with_reducible rw [display_arm_run]
    | with_reducible rw [display_strut_pair_run]
    | with_reducible rw [display_spin_run]
    | with_reducible rw [display_moving_run]
    | with_reducible rw [display_motor_run]
    | with_reducible rw [display_standoffs_run]
    | with_reducible rw [Option.some_bind]
  simp only [List.append_assoc, List.cons_append, List.nil_append, List.length_cons,
    List.length_nil, Nat.add_assoc, Nat.reduceAdd, Uniforms.forPart,
    Uniforms.set_model, Uniforms.set_colourMode, Uniforms.set_emitMode,
    Uniforms.set_attenuationMode, Uniforms.set_numLights, Uniforms.set_reflectiveness,
    Uniforms.set_colourOverride, frameUniforms, lightUniforms, frameScene,
    Scene.set_numLights, Scene.set_emitmode, Scene.set_motorAngle, Scene.set_angle_x,
    Scene.set_angle_y, Scene.set_angle_z, zero_add, partCall, lightCalls,
    platesCalls, armCalls, strutPairCalls, strutPairPops, movingCalls, movingPops, motorCalls,
    motorPops, standoffCall, standoffCalls, droneCalls, dronePops, frameCalls, framePops]
  try rfl

/-- The closed form of one call of `display`: it returns, with the globals
`frameScene sc`, one matrix on the stack, the draw calls `frameCalls` and the pop
depths `framePops`. -/
theorem display_run :
    display G sc gl =
      some ⟨frameScene sc,
        (lightUniforms sc gl).forPart
          (standoffModel G (translate (globalModel G sc 1) ⟨sc.x, sc.y, sc.z⟩)
            (standoffOffset 7)) standoffReflect standoffColour,
        [globalModel G sc 1], frameCalls G sc gl, framePops⟩ := by
  unfold display display_start Frame.enter Frame.push
  rw [Option.some_bind]
  unfold display_body
  repeat first
    | with_reducible rw [Frame.seq_nil]
    | with_reducible rw [Frame.seq_forLoop_three]
    | with_reducible rw [Frame.seq_forLoop_four]
    | with_reducible rw [Frame.seq_cons]
    | with_reducible rw [Frame.pushTop_mk]
    | with_reducible rw [Frame.pop_mk]
    | with_reducible rw [Frame.translateTop_mk]
    | with_reducible rw [Frame.scaleTop_mk]
    | with_reducible rw [Frame.rotateTop_mk]
    | with_reducible rw [Frame.assign_mk]
    | with_reducible rw [Frame.uniformModel_mk]
    | with_reducible rw [Frame.uniformColourMode_mk]
    | with_reducible rw [Frame.uniformAttenuationMode_mk]
    | with_reducible rw [Frame.uniformEmitMode_mk]
    | with_reducible rw [Frame.uniformNumLights_mk]
    | with_reducible rw [Frame.uniformReflectiveness_mk]
    | with_reducible rw [Frame.uniformColourOverride_mk]
    | with_reducible rw [Frame.draw_mk]
    | with_reducible rw [display_light_run]
    | with_reducible rw [display_plates_run]
    | with_reducible rw [display_arm_run]
    | with_reducible rw [display_strut_pair_run]
    | with_reducible rw [display_spin_run]
    | with_reducible rw [display_moving_run]
    | with_reducible rw [display_motor_run]
    | with_reducible rw [display_standoffs_run]
    | with_reducible rw [display_drone_run]
    | with_reducible rw [Option.some_bind]
  simp only [List.append_assoc, List.cons_append, List.nil_append, List.length_cons,
    List.length_nil, Nat.add_assoc, Nat.reduceAdd, Uniforms.forPart,
    Uniforms.set_model, Uniforms.set_colourMode, Uniforms.set_emitMode,
    Uniforms.set_attenuationMode, Uniforms.set_numLights, Uniforms.set_reflectiveness,
    Uniforms.set_colourOverride, frameUniforms, lightUniforms, frameScene,
    Scene.set_numLights, Scene.set_emitmode, Scene.set_motorAngle, Scene.set_angle_x,
    Scene.set_angle_y, Scene.set_angle_z, zero_add, partCall, lightCalls,
    platesCalls, armCalls, strutPairCalls, strutPairPops, movingCalls, movingPops, motorCalls,
    motorPops, standoffCall, standoffCalls, droneCalls, dronePops, frameCalls, framePops]
  try rfl

end run

/-! ## Properties of the input handler and the resize handler -/

/-- C5: with `speed = 0.05`, a key-press event of each of the 26 movement keys
changes exactly one scene variable by its fixed step and leaves the others
unchanged. -/
theorem keyCallback_press_changes_one (sc : Scene) (h : sc.speed = 5 / 100) :
    ChangesOnly sc (keyCallback sc (chr 'Q') GLFW_PRESS).1
      { sc with angle_inc_x := sc.angle_inc_x - sc.speed } ∧
    ChangesOnly sc (keyCallback sc (chr 'W') GLFW_PRESS).1
      { sc with angle_inc_x := sc.angle_inc_x + sc.speed } ∧
    ChangesOnly sc (keyCallback sc (chr 'E') GLFW_PRESS).1
      { sc with angle_inc_y := sc.angle_inc_y - sc.speed } ∧
    ChangesOnly sc (keyCallback sc (chr 'R') GLFW_PRESS).1
      { sc with angle_inc_y := sc.angle_inc_y + sc.speed } ∧
    ChangesOnly sc (keyCallback sc (chr 'T') GLFW_PRESS).1
      { sc with angle_inc_z := sc.angle_inc_z - sc.speed } ∧
    ChangesOnly sc (keyCallback sc (chr 'Y') GLFW_PRESS).1
      { sc with angle_inc_z := sc.angle_inc_z + sc.speed } ∧
    ChangesOnly sc (keyCallback sc (chr 'Z') GLFW_PRESS).1
      { sc with x := sc.x - sc.speed } ∧
    ChangesOnly sc (keyCallback sc (chr 'X') GLFW_PRESS).1
      { sc with x := sc.x + sc.speed } ∧
    ChangesOnly sc (keyCallback sc (chr 'C') GLFW_PRESS).1
      { sc with y := sc.y - sc.speed } ∧
    ChangesOnly sc (keyCallback sc (chr 'V') GLFW_PRESS).1
      { sc with y := sc.y + sc.speed } ∧
    ChangesOnly sc (keyCallback sc (chr 'B') GLFW_PRESS).1
      { sc with z := sc.z - sc.speed } ∧
    ChangesOnly sc (keyCallback sc (chr 'N') GLFW_PRESS).1
      { sc with z := sc.z + sc.speed } ∧
    ChangesOnly sc (keyCallback sc (chr '1') GLFW_PRESS).1
      { sc with light_x := sc.light_x - sc.speed } ∧
    ChangesOnly sc (keyCallback sc (chr '2') GLFW_PRESS).1
      { sc with light_x := sc.light_x + sc.speed } ∧
    ChangesOnly sc (keyCallback sc (chr '3') GLFW_PRESS).1
      { sc with light_y := sc.light_y - sc.speed } ∧
    ChangesOnly sc (keyCallback sc (chr '4') GLFW_PRESS).1
      { sc with light_y := sc.light_y + sc.speed } ∧
    ChangesOnly sc (keyCallback sc (chr '5') GLFW_PRESS).1
      { sc with light_z := sc.light_z - sc.speed } ∧
    ChangesOnly sc (keyCallback sc (chr '6') GLFW_PRESS).1
      { sc with light_z := sc.light_z + sc.speed } ∧
    ChangesOnly sc (keyCallback sc (chr '7') GLFW_PRESS).1
      { sc with vx := sc.vx - 1 } ∧
    ChangesOnly sc (keyCallback sc (chr '8') GLFW_PRESS).1
      { sc with vx := sc.vx + 1 } ∧
    ChangesOnly sc (keyCallback sc (chr '9') GLFW_PRESS).1
      { sc with vy := sc.vy - 1 } ∧
    ChangesOnly sc (keyCallback sc (chr '0') GLFW_PRESS).1
      { sc with vy := sc.vy + 1 } ∧
    ChangesOnly sc (keyCallback sc (chr 'O') GLFW_PRESS).1
      { sc with vz := sc.vz - 1 } ∧
    ChangesOnly sc (keyCallback sc (chr 'P') GLFW_PRESS).1
      { sc with vz := sc.vz + 1 } ∧
    ChangesOnly sc (keyCallback sc (chr 'A') GLFW_PRESS).1
      { sc with model_scale := sc.model_scale - sc.speed / (1 / 2) } ∧
    ChangesOnly sc (keyCallback sc (chr 'S') GLFW_PRESS).1
      { sc with model_scale := sc.model_scale + sc.speed / (1 / 2) } := by
  refine ⟨?_, ?_, ?_, ?_, ?_, ?_, ?_, ?_, ?_, ?_, ?_, ?_, ?_, ?_, ?_, ?_, ?_, ?_, ?_, ?_,
    ?_, ?_, ?_, ?_, ?_, ?_⟩
  · refine ⟨by simp [keyCallback, chr, Scene.set_angle_inc_x], fun hEq => ?_⟩
    have hf := congrArg Scene.angle_inc_x hEq
    simp [keyCallback, chr, Scene.set_angle_inc_x, h] at hf
  · refine ⟨by simp [keyCallback, chr, Scene.set_angle_inc_x], fun hEq => ?_⟩
    have hf := congrArg Scene.angle_inc_x hEq
    simp [keyCallback, chr, Scene.set_angle_inc_x, h] at hf
  · refine ⟨by simp [keyCallback, chr, Scene.set_angle_inc_y], fun hEq => ?_⟩
    have hf := congrArg Scene.angle_inc_y hEq
    simp [keyCallback, chr, Scene.set_angle_inc_y, h] at hf
  · refine ⟨by simp [keyCallback, chr, Scene.set_angle_inc_y], fun hEq => ?_⟩
    have hf := congrArg Scene.angle_inc_y hEq
    simp [keyCallback, chr, Scene.set_angle_inc_y, h] at hf
  · refine ⟨by simp [keyCallback, chr, Scene.set_angle_inc_z], fun hEq => ?_⟩
    have hf := congrArg Scene.angle_inc_z hEq
    simp [keyCallback, chr, Scene.set_angle_inc_z, h] at hf
  · refine ⟨by simp [keyCallback, chr, Scene.set_angle_inc_z], fun hEq => ?_⟩
    have hf := congrArg Scene.angle_inc_z hEq
    simp [keyCallback, chr, Scene.set_angle_inc_z, h] at hf
  · refine ⟨by simp [keyCallback, chr, Scene.set_x], fun hEq => ?_⟩
    have hf := congrArg Scene.x hEq
    simp [keyCallback, chr, Scene.set_x, h] at hf
  · refine ⟨by simp [keyCallback, chr, Scene.set_x], fun hEq => ?_⟩
    have hf := congrArg Scene.x hEq
    simp [keyCallback, chr, Scene.set_x, h] at hf
  · refine ⟨by simp [keyCallback, chr, Scene.set_y], fun hEq => ?_⟩
    have hf := congrArg Scene.y hEq
    simp [keyCallback, chr, Scene.set_y, h] at hf
  · refine ⟨by simp [keyCallback, chr, Scene.set_y], fun hEq => ?_⟩
    have hf := congrArg Scene.y hEq
    simp [keyCallback, chr, Scene.set_y, h] at hf
  · refine ⟨by simp [keyCallback, chr, Scene.set_z], fun hEq => ?_⟩
    have hf := congrArg Scene.z hEq
    simp [keyCallback, chr, Scene.set_z, h] at hf
  · refine ⟨by simp [keyCallback, chr, Scene.set_z], fun hEq => ?_⟩
    have hf := congrArg Scene.z hEq
    simp [keyCallback, chr, Scene.set_z, h] at hf
  · refine ⟨by simp [keyCallback, chr, Scene.set_light_x], fun hEq => ?_⟩
    have hf := congrArg Scene.light_x hEq
    simp [keyCallback, chr, Scene.set_light_x, h] at hf
  · refine ⟨by simp [keyCallback, chr, Scene.set_light_x], fun hEq => ?_⟩
    have hf := congrArg Scene.light_x hEq
    simp [keyCallback, chr, Scene.set_light_x, h] at hf
  · refine ⟨by simp [keyCallback, chr, Scene.set_light_y], fun hEq => ?_⟩
    have hf := congrArg Scene.light_y hEq
    simp [keyCallback, chr, Scene.set_light_y, h] at hf
  · refine ⟨by simp [keyCallback, chr, Scene.set_light_y], fun hEq => ?_⟩
    have hf := congrArg Scene.light_y hEq
    simp [keyCallback, chr, Scene.set_light_y, h] at hf
  · refine ⟨by simp [keyCallback, chr, Scene.set_light_z], fun hEq => ?_⟩
    have hf := congrArg Scene.light_z hEq
    simp [keyCallback, chr, Scene.set_light_z, h] at hf
  · refine ⟨by simp [keyCallback, chr, Scene.set_light_z], fun hEq => ?_⟩
    have hf := congrArg Scene.light_z hEq
    simp [keyCallback, chr, Scene.set_light_z, h] at hf
  · refine ⟨by simp [keyCallback, chr, Scene.set_vx], fun hEq => ?_⟩
    have hf := congrArg Scene.vx hEq
    simp [keyCallback, chr, Scene.set_vx, h] at hf
  · refine ⟨by simp [keyCallback, chr, Scene.set_vx], fun hEq => ?_⟩
    have hf := congrArg Scene.vx hEq
    simp [keyCallback, chr, Scene.set_vx, h] at hf
  · refine ⟨by simp [keyCallback, chr, Scene.set_vy], fun hEq => ?_⟩
    have hf := congrArg Scene.vy hEq
    simp [keyCallback, chr, Scene.set_vy, h] at hf
  · refine ⟨by simp [keyCallback, chr, Scene.set_vy], fun hEq => ?_⟩
    have hf := congrArg Scene.vy hEq
    simp [keyCallback, chr, Scene.set_vy, h] at hf
  · refine ⟨by simp [keyCallback, chr, Scene.set_vz], fun hEq => ?_⟩
    have hf := congrArg Scene.vz hEq
    simp [keyCallback, chr, Scene.set_vz, h] at hf
  · refine ⟨by simp [keyCallback, chr, Scene.set_vz], fun hEq => ?_⟩
    have hf := congrArg Scene.vz hEq
    simp [keyCallback, chr, Scene.set_vz, h] at hf
  · refine ⟨by simp [keyCallback, chr, Scene.set_model_scale], fun hEq => ?_⟩
    have hf := congrArg Scene.model_scale hEq
    simp [keyCallback, chr, Scene.set_model_scale, h] at hf
  · refine ⟨by simp [keyCallback, chr, Scene.set_model_scale], fun hEq => ?_⟩
    have hf := congrArg Scene.model_scale hEq
    simp [keyCallback, chr, Scene.set_model_scale, h] at hf

/-- Witness for C5 at the scene that `init` sets up: `speed` is 0.05 there, and
the 26 conclusions hold. -/
theorem keyCallback_press_changes_one_witness :
    (init Scene.zero).speed = 5 / 100 ∧
    ChangesOnly (init Scene.zero) (keyCallback (init Scene.zero) (chr 'Q') GLFW_PRESS).1
      { init Scene.zero with
        angle_inc_x := (init Scene.zero).angle_inc_x - (init Scene.zero).speed } :=
  ⟨by simp [init], (keyCallback_press_changes_one (init Scene.zero) (by simp [init])).1⟩

/-- C6: from a draw mode in {0,1,2}, a `,` key-release maps 0 to 1, 1 to 2 and 2 to
0 and changes nothing else, so the draw mode stays in {0,1,2} and three releases
restore the scene; a `,` key-press leaves the scene unchanged. -/
theorem keyCallback_comma_cycles (sc : Scene) (h : sc.drawmode ≤ 2) :
    (sc.drawmode = 0 →
      (keyCallback sc (chr ',') GLFW_RELEASE).1 = { sc with drawmode := 1 }) ∧
    (sc.drawmode = 1 →
      (keyCallback sc (chr ',') GLFW_RELEASE).1 = { sc with drawmode := 2 }) ∧
    (sc.drawmode = 2 →
      (keyCallback sc (chr ',') GLFW_RELEASE).1 = { sc with drawmode := 0 }) ∧
    (keyCallback sc (chr ',') GLFW_RELEASE).1.drawmode ≤ 2 ∧
    (keyCallback (keyCallback (keyCallback sc (chr ',') GLFW_RELEASE).1
      (chr ',') GLFW_RELEASE).1 (chr ',') GLFW_RELEASE).1 = sc ∧
    (keyCallback sc (chr ',') GLFW_PRESS).1 = sc := by
  obtain ⟨cm, em, am, ax, aix, x, ms, z, y, vx, vy, vz, ay, aiy, az, aiz, dm, sp, ma, lx, ly,
    lz, nl, ar⟩ := sc
  simp only at h
  have hd : dm = 0 ∨ dm = 1 ∨ dm = 2 := by omega
  rcases hd with rfl | rfl | rfl <;>
    simp [keyCallback, chr, GLFW_PRESS, GLFW_RELEASE, GLFW_KEY_ESCAPE, Scene.set_drawmode]

/-- Witness for C6 at the scene that `init` sets up, whose draw mode is 0. -/
theorem keyCallback_comma_cycles_witness :
    (init Scene.zero).drawmode ≤ 2 ∧
    (keyCallback (init Scene.zero) (chr ',') GLFW_RELEASE).1.drawmode ≤ 2 :=
  ⟨by simp [init, Scene.zero],
   (keyCallback_comma_cycles (init Scene.zero) (by simp [init, Scene.zero])).2.2.2.1⟩

/-- C7, as stated, fails: a repeat event (which is not a release event) of each
toggle key changes the mode, here from the scene that `init` sets up. -/
theorem keyCallback_toggle_on_repeat :
    GLFW_REPEAT ≠ GLFW_RELEASE ∧
    (keyCallback (init Scene.zero) (chr 'M') GLFW_REPEAT).1.colourmode
      ≠ (init Scene.zero).colourmode ∧
    (keyCallback (init Scene.zero) (chr '.') GLFW_REPEAT).1.attenuationmode
      ≠ (init Scene.zero).attenuationmode ∧
    (keyCallback (init Scene.zero) (chr ',') GLFW_REPEAT).1.drawmode
      ≠ (init Scene.zero).drawmode := by
  simp [keyCallback, chr, GLFW_PRESS, GLFW_RELEASE, GLFW_REPEAT, GLFW_KEY_ESCAPE, init,
    Scene.zero, Scene.set_drawmode, Scene.set_colourmode, Scene.set_attenuationmode, lnot]

/-- C7, amended: for each toggle key and every scene, the event changes the
corresponding mode exactly when its action is not key-press (so on release and on
repeat), and a key-press leaves the mode unchanged. -/
theorem keyCallback_toggle_iff_not_press (sc : Scene) (action : Int) :
    ((keyCallback sc (chr 'M') action).1.colourmode ≠ sc.colourmode
      ↔ action ≠ GLFW_PRESS) ∧
    ((keyCallback sc (chr '.') action).1.attenuationmode ≠ sc.attenuationmode
      ↔ action ≠ GLFW_PRESS) ∧
    ((keyCallback sc (chr ',') action).1.drawmode ≠ sc.drawmode
      ↔ action ≠ GLFW_PRESS) := by
  refine ⟨?_, ?_, ?_⟩
  · by_cases ha : action = GLFW_PRESS
    · simp [keyCallback, chr, ha]
    · by_cases hc : sc.colourmode = 0 <;>
        simp [keyCallback, chr, ha, Scene.set_colourmode, lnot, hc]
      exact fun h0 => hc h0.symm
  · by_cases ha : action = GLFW_PRESS
    · simp [keyCallback, chr, ha]
    · by_cases hc : sc.attenuationmode = 0 <;>
        simp [keyCallback, chr, ha, Scene.set_attenuationmode, lnot, hc]
      exact fun h0 => hc h0.symm
  · by_cases ha : action = GLFW_PRESS
    · simp [keyCallback, chr, ha]
    · simp only [keyCallback, chr, ha, Scene.set_drawmode]
      simp
      split_ifs with h2
      · simp only []
        omega
      · simp only []
        omega

/-- How `keyCallback` treats `attenuationmode`, for every key and action. -/
theorem keyCallback_attenuationmode (sc : Scene) (key action : Int) :
    (keyCallback sc key action).1.attenuationmode =
      if key = chr '.' ∧ action ≠ GLFW_PRESS then lnot sc.attenuationmode
      else sc.attenuationmode := by
  unfold keyCallback
  simp only [apply_ite Scene.attenuationmode, Scene.set_angle_inc_x, Scene.set_angle_inc_y,
    Scene.set_angle_inc_z, Scene.set_model_scale, Scene.set_x, Scene.set_y, Scene.set_z,
    Scene.set_light_x, Scene.set_light_y, Scene.set_light_z, Scene.set_vx, Scene.set_vy,
    Scene.set_vz, Scene.set_colourmode, Scene.set_attenuationmode, Scene.set_drawmode,
    ite_self]

/-- Every scene reachable from `init` by key events has `attenuationmode` 0 or 1. -/
theorem KeyReachable.attenuationmode_le (sc : Scene) (h : KeyReachable sc) :
    sc.attenuationmode = 0 ∨ sc.attenuationmode = 1 := by
  induction h with
  | start => simp [init]
  | key sc key action _ ih =>
    rw [keyCallback_attenuationmode]
    unfold lnot
    split_ifs <;> simp [ih]

/-- C8: when `attenuationmode` is 0 or 1 (as it is in every scene reachable from
`init` by key events), two `.` key-release events restore `attenuationmode` and
the whole scene. -/
theorem keyCallback_period_twice (sc : Scene)
    (h : sc.attenuationmode = 0 ∨ sc.attenuationmode = 1) :
    (keyCallback (keyCallback sc (chr '.') GLFW_RELEASE).1 (chr '.') GLFW_RELEASE).1 = sc := by
  obtain ⟨cm, em, am, ax, aix, x, ms, z, y, vx, vy, vz, ay, aiy, az, aiz, dm, sp, ma, lx, ly,
    lz, nl, ar⟩ := sc
  simp only at h
  rcases h with rfl | rfl <;>
    simp [keyCallback, chr, GLFW_PRESS, GLFW_RELEASE, GLFW_KEY_ESCAPE,
      Scene.set_attenuationmode, lnot]

/-- Witness for C8 at the scene that `init` sets up, where attenuation is on. -/
theorem keyCallback_period_twice_witness :
    ((init Scene.zero).attenuationmode = 0 ∨ (init Scene.zero).attenuationmode = 1) ∧
    (keyCallback (keyCallback (init Scene.zero) (chr '.') GLFW_RELEASE).1
      (chr '.') GLFW_RELEASE).1 = init Scene.zero :=
  ⟨by simp [init], keyCallback_period_twice (init Scene.zero) (by simp [init])⟩

/-- C9, as stated, fails: `reshape` with width 800 and height 600 does not set
`aspect_ratio` to 5/3. -/
theorem reshape_800_600_ne :
    (reshape (init Scene.zero) 800 600).1.aspect_ratio ≠ 5 / 3 := by
  simp only [reshape, Scene.set_aspect_ratio]
  norm_num

/-- C9, amended: `reshape` with width 800 and height 600 sets `aspect_ratio` to
(800/640*4)/(600/480*3) = 5/3.75, which is 4/3 in exact arithmetic. -/
theorem reshape_800_600 (sc : Scene) :
    (reshape sc 800 600).1.aspect_ratio = ((800 : ℚ) / 640 * 4) / ((600 : ℚ) / 480 * 3) ∧
    ((800 : ℚ) / 640 * 4 = 5 ∧ (600 : ℚ) / 480 * 3 = 375 / 100) ∧
    (reshape sc 800 600).1.aspect_ratio = 4 / 3 := by
  simp only [reshape, Scene.set_aspect_ratio]
  norm_num

/-- C10: for every width and every non-zero height, `reshape` sets `aspect_ratio`
to (w/640*4)/(h/480*3), which equals w/h, and changes no other scene variable;
`reshape` with 640 and 480 yields exactly 4/3. -/
theorem reshape_aspect_ratio (sc : Scene) (w h : Int) (hh : h ≠ 0) :
    (reshape sc w h).1 =
      { sc with aspect_ratio := ((w : ℚ) / 640 * 4) / ((h : ℚ) / 480 * 3) } ∧
    ((w : ℚ) / 640 * 4) / ((h : ℚ) / 480 * 3) = (w : ℚ) / (h : ℚ) ∧
    (reshape sc 640 480).1.aspect_ratio = 4 / 3 := by
  have hq : (h : ℚ) ≠ 0 := by exact_mod_cast hh
  refine ⟨rfl, ?_, ?_⟩
  · field_simp
    ring
  · simp only [reshape, Scene.set_aspect_ratio]
    norm_num

/-- Witness for C10 at width 1024 and height 768, the size of the window `main`
creates. -/
theorem reshape_aspect_ratio_witness :
    (768 : Int) ≠ 0 ∧ (reshape (init Scene.zero) 1024 768).1.aspect_ratio = 4 / 3 :=
  ⟨by decide, by
    have h := (reshape_aspect_ratio (init Scene.zero) 1024 768 (by decide)).1
    rw [h]
    norm_num⟩

/-! ## The movement keys and the action of the event -/

/-- C14: for each of the 26 movement keys `keyCallback` ignores the action: an
event of any action (press, repeat or release) applies the same step to the same
variable and changes nothing else, and a press followed by a release changes that
variable by twice the step. -/
theorem keyCallback_movement_ignores_action (sc : Scene) (action : Int) :
    ((keyCallback sc (chr 'Q') action).1 = { sc with angle_inc_x := sc.angle_inc_x - sc.speed } ∧
     (keyCallback (keyCallback sc (chr 'Q') GLFW_PRESS).1 (chr 'Q') GLFW_RELEASE).1 =
       { sc with angle_inc_x := sc.angle_inc_x - 2 * sc.speed }) ∧
    ((keyCallback sc (chr 'W') action).1 = { sc with angle_inc_x := sc.angle_inc_x + sc.speed } ∧
     (keyCallback (keyCallback sc (chr 'W') GLFW_PRESS).1 (chr 'W') GLFW_RELEASE).1 =
       { sc with angle_inc_x := sc.angle_inc_x + 2 * sc.speed }) ∧
    ((keyCallback sc (chr 'E') action).1 = { sc with angle_inc_y := sc.angle_inc_y - sc.speed } ∧
     (keyCallback (keyCallback sc (chr 'E') GLFW_PRESS).1 (chr 'E') GLFW_RELEASE).1 =
       { sc with angle_inc_y := sc.angle_inc_y - 2 * sc.speed }) ∧
    ((keyCallback sc (chr 'R') action).1 = { sc with angle_inc_y := sc.angle_inc_y + sc.speed } ∧
     (keyCallback (keyCallback sc (chr 'R') GLFW_PRESS).1 (chr 'R') GLFW_RELEASE).1 =
       { sc with angle_inc_y := sc.angle_inc_y + 2 * sc.speed }) ∧
    ((keyCallback sc (chr 'T') action).1 = { sc with angle_inc_z := sc.angle_inc_z - sc.speed } ∧
     (keyCallback (keyCallback sc (chr 'T') GLFW_PRESS).1 (chr 'T') GLFW_RELEASE).1 =
       { sc with angle_inc_z := sc.angle_inc_z - 2 * sc.speed }) ∧
    ((keyCallback sc (chr 'Y') action).1 = { sc with angle_inc_z := sc.angle_inc_z + sc.speed } ∧
     (keyCallback (keyCallback sc (chr 'Y') GLFW_PRESS).1 (chr 'Y') GLFW_RELEASE).1 =
       { sc with angle_inc_z := sc.angle_inc_z + 2 * sc.speed }) ∧
    ((keyCallback sc (chr 'A') action).1 = { sc with model_scale := sc.model_scale - sc.speed / (1 / 2) } ∧
     (keyCallback (keyCallback sc (chr 'A') GLFW_PRESS).1 (chr 'A') GLFW_RELEASE).1 =
       { sc with model_scale := sc.model_scale - 2 * (sc.speed / (1 / 2)) }) ∧
    ((keyCallback sc (chr 'S') action).1 = { sc with model_scale := sc.model_scale + sc.speed / (1 / 2) } ∧
     (keyCallback (keyCallback sc (chr 'S') GLFW_PRESS).1 (chr 'S') GLFW_RELEASE).1 =
       { sc with model_scale := sc.model_scale + 2 * (sc.speed / (1 / 2)) }) ∧
    ((keyCallback sc (chr 'Z') action).1 = { sc with x := sc.x - sc.speed } ∧
     (keyCallback (keyCallback sc (chr 'Z') GLFW_PRESS).1 (chr 'Z') GLFW_RELEASE).1 =
       { sc with x := sc.x - 2 * sc.speed }) ∧
    ((keyCallback sc (chr 'X') action).1 = { sc with x := sc.x + sc.speed } ∧
     (keyCallback (keyCallback sc (chr 'X') GLFW_PRESS).1 (chr 'X') GLFW_RELEASE).1 =
       { sc with x := sc.x + 2 * sc.speed }) ∧
    ((keyCallback sc (chr 'C') action).1 = { sc with y := sc.y - sc.speed } ∧
     (keyCallback (keyCallback sc (chr 'C') GLFW_PRESS).1 (chr 'C') GLFW_RELEASE).1 =
       { sc with y := sc.y - 2 * sc.speed }) ∧
    ((keyCallback sc (chr 'V') action).1 = { sc with y := sc.y + sc.speed } ∧
     (keyCallback (keyCallback sc (chr 'V') GLFW_PRESS).1 (chr 'V') GLFW_RELEASE).1 =
       { sc with y := sc.y + 2 * sc.speed }) ∧
    ((keyCallback sc (chr 'B') action).1 = { sc with z := sc.z - sc.speed } ∧
     (keyCallback (keyCallback sc (chr 'B') GLFW_PRESS).1 (chr 'B') GLFW_RELEASE).1 =
       { sc with z := sc.z - 2 * sc.speed }) ∧
    ((keyCallback sc (chr 'N') action).1 = { sc with z := sc.z + sc.speed } ∧
     (keyCallback (keyCallback sc (chr 'N') GLFW_PRESS).1 (chr 'N') GLFW_RELEASE).1 =
       { sc with z := sc.z + 2 * sc.speed }) ∧
    ((keyCallback sc (chr '1') action).1 = { sc with light_x := sc.light_x - sc.speed } ∧
     (keyCallback (keyCallback sc (chr '1') GLFW_PRESS).1 (chr '1') GLFW_RELEASE).1 =
       { sc with light_x := sc.light_x - 2 * sc.speed }) ∧
    ((keyCallback sc (chr '2') action).1 = { sc with light_x := sc.light_x + sc.speed } ∧
     (keyCallback (keyCallback sc (chr '2') GLFW_PRESS).1 (chr '2') GLFW_RELEASE).1 =
       { sc with light_x := sc.light_x + 2 * sc.speed }) ∧
    ((keyCallback sc (chr '3') action).1 = { sc with light_y := sc.light_y - sc.speed } ∧
     (keyCallback (keyCallback sc (chr '3') GLFW_PRESS).1 (chr '3') GLFW_RELEASE).1 =
       { sc with light_y := sc.light_y - 2 * sc.speed }) ∧
    ((keyCallback sc (chr '4') action).1 = { sc with light_y := sc.light_y + sc.speed } ∧
     (keyCallback (keyCallback sc (chr '4') GLFW_PRESS).1 (chr '4') GLFW_RELEASE).1 =
       { sc with light_y := sc.light_y + 2 * sc.speed }) ∧
    ((keyCallback sc (chr '5') action).1 = { sc with light_z := sc.light_z - sc.speed } ∧
     (keyCallback (keyCallback sc (chr '5') GLFW_PRESS).1 (chr '5') GLFW_RELEASE).1 =
       { sc with light_z := sc.light_z - 2 * sc.speed }) ∧
    ((keyCallback sc (chr '6') action).1 = { sc with light_z := sc.light_z + sc.speed } ∧
     (keyCallback (keyCallback sc (chr '6') GLFW_PRESS).1 (chr '6') GLFW_RELEASE).1 =
       { sc with light_z := sc.light_z + 2 * sc.speed }) ∧
    ((keyCallback sc (chr '7') action).1 = { sc with vx := sc.vx - 1 } ∧
     (keyCallback (keyCallback sc (chr '7') GLFW_PRESS).1 (chr '7') GLFW_RELEASE).1 =
       { sc with vx := sc.vx - 2 * 1 }) ∧
    ((keyCallback sc (chr '8') action).1 = { sc with vx := sc.vx + 1 } ∧
     (keyCallback (keyCallback sc (chr '8') GLFW_PRESS).1 (chr '8') GLFW_RELEASE).1 =
       { sc with vx := sc.vx + 2 * 1 }) ∧
    ((keyCallback sc (chr '9') action).1 = { sc with vy := sc.vy - 1 } ∧
     (keyCallback (keyCallback sc (chr '9') GLFW_PRESS).1 (chr '9') GLFW_RELEASE).1 =
       { sc with vy := sc.vy - 2 * 1 }) ∧
    ((keyCallback sc (chr '0') action).1 = { sc with vy := sc.vy + 1 } ∧
     (keyCallback (keyCallback sc (chr '0') GLFW_PRESS).1 (chr '0') GLFW_RELEASE).1 =
       { sc with vy := sc.vy + 2 * 1 }) ∧
    ((keyCallback sc (chr 'O') action).1 = { sc with vz := sc.vz - 1 } ∧
     (keyCallback (keyCallback sc (chr 'O') GLFW_PRESS).1 (chr 'O') GLFW_RELEASE).1 =
       { sc with vz := sc.vz - 2 * 1 }) ∧
    ((keyCallback sc (chr 'P') action).1 = { sc with vz := sc.vz + 1 } ∧
     (keyCallback (keyCallback sc (chr 'P') GLFW_PRESS).1 (chr 'P') GLFW_RELEASE).1 =
       { sc with vz := sc.vz + 2 * 1 }) := by
  refine ⟨?_, ?_, ?_, ?_, ?_, ?_, ?_, ?_, ?_, ?_, ?_, ?_, ?_, ?_, ?_, ?_, ?_, ?_, ?_, ?_,
    ?_, ?_, ?_, ?_, ?_, ?_⟩
  · refine ⟨by simp [keyCallback, chr, Scene.set_angle_inc_x], ?_⟩
    simp only [keyCallback, chr, Scene.set_angle_inc_x]
    simp
    ring
  · refine ⟨by simp [keyCallback, chr, Scene.set_angle_inc_x], ?_⟩
    simp only [keyCallback, chr, Scene.set_angle_inc_x]
    simp
    ring
  · refine ⟨by simp [keyCallback, chr, Scene.set_angle_inc_y], ?_⟩
    simp only [keyCallback, chr, Scene.set_angle_inc_y]
    simp
    ring
  · refine ⟨by simp [keyCallback, chr, Scene.set_angle_inc_y], ?_⟩
    simp only [keyCallback, chr, Scene.set_angle_inc_y]
    simp
    ring
  · refine ⟨by simp [keyCallback, chr, Scene.set_angle_inc_z], ?_⟩
    simp only [keyCallback, chr, Scene.set_angle_inc_z]
    simp
    ring
  · refine ⟨by simp [keyCallback, chr, Scene.set_angle_inc_z], ?_⟩
    simp only [keyCallback, chr, Scene.set_angle_inc_z]
    simp
    ring
  · refine ⟨by simp [keyCallback, chr, Scene.set_model_scale], ?_⟩
    simp only [keyCallback, chr, Scene.set_model_scale]
    simp
    ring
  · refine ⟨by simp [keyCallback, chr, Scene.set_model_scale], ?_⟩
    simp only [keyCallback, chr, Scene.set_model_scale]
    simp
    ring
  · refine ⟨by simp [keyCallback, chr, Scene.set_x], ?_⟩
    simp only [keyCallback, chr, Scene.set_x]
    simp
    ring
  · refine ⟨by simp [keyCallback, chr, Scene.set_x], ?_⟩
    simp only [keyCallback, chr, Scene.set_x]
    simp
    ring
  · refine ⟨by simp [keyCallback, chr, Scene.set_y], ?_⟩
    simp only [keyCallback, chr, Scene.set_y]
    simp
    ring
  · refine ⟨by simp [keyCallback, chr, Scene.set_y], ?_⟩
    simp only [keyCallback, chr, Scene.set_y]
    simp
    ring
  · refine ⟨by simp [keyCallback, chr, Scene.set_z], ?_⟩
    simp only [keyCallback, chr, Scene.set_z]
    simp
    ring
  · refine ⟨by simp [keyCallback, chr, Scene.set_z], ?_⟩
    simp only [keyCallback, chr, Scene.set_z]
    simp
    ring
  · refine ⟨by simp [keyCallback, chr, Scene.set_light_x], ?_⟩
    simp only [keyCallback, chr, Scene.set_light_x]
    simp
    ring
  · refine ⟨by simp [keyCallback, chr, Scene.set_light_x], ?_⟩
    simp only [keyCallback, chr, Scene.set_light_x]
    simp
    ring
  · refine ⟨by simp [keyCallback, chr, Scene.set_light_y], ?_⟩
    simp only [keyCallback, chr, Scene.set_light_y]
    simp
    ring
  · refine ⟨by simp [keyCallback, chr, Scene.set_light_y], ?_⟩
    simp only [keyCallback, chr, Scene.set_light_y]
    simp
    ring
  · refine ⟨by simp [keyCallback, chr, Scene.set_light_z], ?_⟩
    simp only [keyCallback, chr, Scene.set_light_z]
    simp
    ring
  · refine ⟨by simp [keyCallback, chr, Scene.set_light_z], ?_⟩
    simp only [keyCallback, chr, Scene.set_light_z]
    simp
    ring
  · refine ⟨by simp [keyCallback, chr, Scene.set_vx], ?_⟩
    simp only [keyCallback, chr, Scene.set_vx]
    simp
    ring
  · refine ⟨by simp [keyCallback, chr, Scene.set_vx], ?_⟩
    simp only [keyCallback, chr, Scene.set_vx]
    simp
    ring
  · refine ⟨by simp [keyCallback, chr, Scene.set_vy], ?_⟩
    simp only [keyCallback, chr, Scene.set_vy]
    simp
    ring
  · refine ⟨by simp [keyCallback, chr, Scene.set_vy], ?_⟩
    simp only [keyCallback, chr, Scene.set_vy]
    simp
    ring
  · refine ⟨by simp [keyCallback, chr, Scene.set_vz], ?_⟩
    simp only [keyCallback, chr, Scene.set_vz]
    simp
    ring
  · refine ⟨by simp [keyCallback, chr, Scene.set_vz], ?_⟩
    simp only [keyCallback, chr, Scene.set_vz]
    simp
    ring

/-! ## Properties of one call of `display` -/

/-- C1: for every scene, `display` starts its matrix stack with exactly one entry,
returns, finds depth at least 2 at each of its 89 pops, and leaves the stack at
depth 1. -/
theorem display_stack_discipline (G : GLM) (sc : Scene) (gl : Uniforms) :
    (∃ f0, display_start sc gl = some f0 ∧ f0.model.length = 1 ∧ f0.pops = []) ∧
    ∃ f, display G sc gl = some f ∧ f.pops.length = 89 ∧ (∀ d ∈ f.pops, 2 ≤ d) ∧
      f.model.length = 1 := by
  refine ⟨⟨_, rfl, rfl, rfl⟩, _, display_run G sc gl, ?_, ?_, rfl⟩
  · show framePops.length = 89
    decide
  · show ∀ d ∈ framePops, 2 ≤ d
    decide

/-- The draw call of arm `i` among the draw calls of a frame. -/
theorem frameCalls_arm (G : GLM) (sc : Scene) (gl : Uniforms) (i : Fin 4) :
    ((frameCalls G sc gl).filter (fun call => decide (call.part = Part.arm i))).map
      (fun call => call.uniforms.model) =
      [armModel G (translate (globalModel G sc 1) ⟨sc.x, sc.y, sc.z⟩) i] := by
  fin_cases i <;> rfl

/-- The matrix on which the drone is built, as a product. -/
theorem translate_globalModel (G : GLM) (sc : Scene) :
    translate (globalModel G sc 1) ⟨sc.x, sc.y, sc.z⟩ = bodyMatrix G sc := by
  simp only [globalModel, bodyMatrix, translate_eq_mul, scale_eq_mul, rotate_x_eq_mul,
    rotate_y_eq_mul, rotate_z_eq_mul, Matrix.one_mul]

/-- C2: for every scene and every arm index `i` in 0..3, `display` issues one draw
call for arm `i`, and the model matrix uploaded for it is
S(model_scale) * Rx(-angle_x) * Ry(-angle_y) * Rz(-angle_z) * T(x,y,z) *
Ry(-(45 + 90 i) degrees) * T(0.45,-0.1,0) * S(0.8,0.03,0.15). -/
theorem display_arm_model (G : GLM) (sc : Scene) (gl : Uniforms) (i : Fin 4) :
    ∃ f, display G sc gl = some f ∧
      f.modelsOf (Part.arm i) =
        [matS ⟨sc.model_scale, sc.model_scale, sc.model_scale⟩ *
          matRx G (-(radians G sc.angle_x)) * matRy G (-(radians G sc.angle_y)) *
          matRz G (-(radians G sc.angle_z)) * matT ⟨sc.x, sc.y, sc.z⟩ *
          matRy G (-(radians G (45 + 90 * (i : ℚ)))) * matT ⟨45 / 100, -(1 / 10), 0⟩ *
          matS ⟨8 / 10, 3 / 100, 15 / 100⟩] := by
  refine ⟨_, display_run G sc gl, (frameCalls_arm G sc gl i).trans ?_⟩
  rw [translate_globalModel, add_comm (45 : ℚ)]
  simp only [armModel, bodyMatrix, translate_eq_mul, scale_eq_mul, rotate_y_eq_mul,
    frameArmScale]

/-- The value of `motorAngle` that motor `i` reads is the start value plus `i`. -/
theorem motorAngleAt_eq (sc : Scene) (i : Nat) : motorAngleAt sc i = sc.motorAngle + (i : ℚ) := by
  induction i with
  | zero => simp [motorAngleAt]
  | succ n ih => simp [motorAngleAt, ih, add_assoc]

/-- The draw call of the shaft of motor `i` among the draw calls of a frame. -/
theorem frameCalls_shaft (G : GLM) (sc : Scene) (gl : Uniforms) (i : Fin 4) :
    ((frameCalls G sc gl).filter (fun call => decide (call.part = Part.shaft i))).map
      (fun call => call.uniforms.model) =
      [shaftModel G (spinModel G
        (motorModel G (translate (globalModel G sc 1) ⟨sc.x, sc.y, sc.z⟩) i) i
        (motorAngleAt sc i))] := by
  fin_cases i <;> rfl

/-- The draw call of the stator of motor `i` among the draw calls of a frame. -/
theorem frameCalls_stator (G : GLM) (sc : Scene) (gl : Uniforms) (i : Fin 4) :
    ((frameCalls G sc gl).filter (fun call => decide (call.part = Part.stator i))).map
      (fun call => call.uniforms.model) =
      [statorModel G (motorModel G (translate (globalModel G sc 1) ⟨sc.x, sc.y, sc.z⟩) i)] := by
  fin_cases i <;> rfl

/-- The draw call of standoff `k` among the draw calls of a frame. -/
theorem frameCalls_standoff (G : GLM) (sc : Scene) (gl : Uniforms) (k : Fin 8) :
    ((frameCalls G sc gl).filter (fun call => decide (call.part = Part.standoff k))).map
      (fun call => call.uniforms.model) =
      [standoffModel G (translate (globalModel G sc 1) ⟨sc.x, sc.y, sc.z⟩)
        (standoffOffset k)] := by
  fin_cases k <;> rfl

/-- The matrix at the foot of motor `i`, as a product. -/
theorem motorModel_body (G : GLM) (sc : Scene) (i : Nat) :
    motorModel G (bodyMatrix G sc) i = motorMatrix G sc i := by
  simp only [motorModel, motorMatrix, translate_eq_mul, rotate_y_eq_mul]

/-- The matrix of the spinning parts of motor `i`, as a product. -/
theorem spinModel_motor (G : GLM) (sc : Scene) (i : Nat) :
    spinModel G (motorMatrix G sc i) i (motorAngleAt sc i) = spinMatrix G sc i := by
  unfold spinModel spinMatrix
  rw [motorAngleAt_eq]
  split_ifs <;> rw [rotate_y_eq_mul]

/-- The model matrix uploaded for the shaft of motor `i`. -/
theorem display_shaft_model (G : GLM) (sc : Scene) (gl : Uniforms) (i : Fin 4) (f : Frame)
    (hf : display G sc gl = some f) :
      f.modelsOf (Part.shaft i) =
        [spinMatrix G sc i * matT ⟨0, 6 / 100, 0⟩ * matS motorShaftScale *
          matRx G (-(radians G 90))] := by
  rw [display_run] at hf
  cases hf
  refine (frameCalls_shaft G sc gl i).trans ?_
  rw [translate_globalModel, motorModel_body, spinModel_motor]
  simp only [shaftModel, translate_eq_mul, scale_eq_mul, rotate_x_eq_mul]

/-- The model matrix uploaded for the stator of motor `i`. -/
theorem display_stator_model (G : GLM) (sc : Scene) (gl : Uniforms) (i : Fin 4) (f : Frame)
    (hf : display G sc gl = some f) :
      f.modelsOf (Part.stator i) =
        [motorMatrix G sc i * matT ⟨0, -(15 / 1000), 0⟩ * matS motorStatorScale *
          matRx G (-(radians G 90))] := by
  rw [display_run] at hf
  cases hf
  refine (frameCalls_stator G sc gl i).trans ?_
  rw [translate_globalModel, motorModel_body]
  simp only [statorModel, translate_eq_mul, scale_eq_mul, rotate_x_eq_mul]

/-- The model matrix uploaded for standoff `k`. -/
theorem display_standoff_model (G : GLM) (sc : Scene) (gl : Uniforms) (k : Fin 8) (f : Frame)
    (hf : display G sc gl = some f) :
      f.modelsOf (Part.standoff k) =
        [bodyMatrix G sc * matT (standoffOffset k) * matS standoffScale *
          matRx G (-(radians G 90))] := by
  rw [display_run] at hf
  cases hf
  refine (frameCalls_standoff G sc gl k).trans ?_
  rw [translate_globalModel]
  simp only [standoffModel, translate_eq_mul, scale_eq_mul, rotate_x_eq_mul]

/-- With the stand-in cosine and sine, scaling then rotating a standoff differs
from rotating then scaling it, already in row 1, column 2. -/
theorem standoff_scale_rotate_ne :
    bodyMatrix GLM.taylor (init Scene.zero) * matT (standoffOffset 0) * matS standoffScale *
        matRx GLM.taylor (-(radians GLM.taylor 90)) ≠
      bodyMatrix GLM.taylor (init Scene.zero) * matT (standoffOffset 0) *
        matRx GLM.taylor (-(radians GLM.taylor 90)) * matS standoffScale := by
  intro h
  have h12 := congrFun (congrFun h 1) 2
  simp [bodyMatrix, matS, matT, matRx, matRy, matRz, Matrix.mul_apply, Fin.sum_univ_four,
    init, GLM.taylor, radians, standoffOffset, standoffScale, Matrix.vecHead,
    Matrix.vecTail] at h12
  norm_num at h12

/-- C3, as stated, fails: for the first standoff of the scene that `init` sets up,
the model matrix uploaded is not P * T * R * S, the product with the rotation to
the left of the scale. -/
theorem display_standoff_not_rotate_scale :
    ∃ f, display GLM.taylor (init Scene.zero) Uniforms.zero = some f ∧
      f.modelsOf (Part.standoff 0) ≠
        [bodyMatrix GLM.taylor (init Scene.zero) * matT (standoffOffset 0) *
          matRx GLM.taylor (-(radians GLM.taylor 90)) * matS standoffScale] := by
  refine ⟨_, display_run GLM.taylor (init Scene.zero) Uniforms.zero, ?_⟩
  have hm := display_standoff_model GLM.taylor (init Scene.zero) Uniforms.zero 0 _
    (display_run GLM.taylor (init Scene.zero) Uniforms.zero)
  intro h
  exact standoff_scale_rotate_ne (List.cons.inj (hm.symm.trans h)).1

/-- C3, amended: for every part that `display` places by translate(T), then
scale(S), then rotate(R) on a copy of its parent matrix P (the shaft and the
stator of each motor and the eight standoffs, R the rotation about x by -90
degrees), the model matrix uploaded is P * T * S * R, with the scale factor to the
left of the rotation factor. -/
theorem display_translate_scale_rotate (G : GLM) (sc : Scene) (gl : Uniforms) :
    ∃ f, display G sc gl = some f ∧
      (∀ i : Fin 4,
        f.modelsOf (Part.shaft i) =
          [spinMatrix G sc i * matT ⟨0, 6 / 100, 0⟩ * matS motorShaftScale *
            matRx G (-(radians G 90))] ∧
        f.modelsOf (Part.stator i) =
          [motorMatrix G sc i * matT ⟨0, -(15 / 1000), 0⟩ * matS motorStatorScale *
            matRx G (-(radians G 90))]) ∧
      ∀ k : Fin 8,
        f.modelsOf (Part.standoff k) =
          [bodyMatrix G sc * matT (standoffOffset k) * matS standoffScale *
            matRx G (-(radians G 90))] :=
  ⟨_, display_run G sc gl,
    fun i => ⟨display_shaft_model G sc gl i _ (display_run G sc gl),
      display_stator_model G sc gl i _ (display_run G sc gl)⟩,
    fun k => display_standoff_model G sc gl k _ (display_run G sc gl)⟩

/-- The matrix that `display` leaves on its stack. -/
theorem globalModel_one (G : GLM) (sc : Scene) :
    globalModel G sc 1 =
      matS ⟨sc.model_scale, sc.model_scale, sc.model_scale⟩ *
        matRx G (-(radians G sc.angle_x)) * matRy G (-(radians G sc.angle_y)) *
        matRz G (-(radians G sc.angle_z)) := by
  simp only [globalModel, scale_eq_mul, rotate_x_eq_mul, rotate_y_eq_mul, rotate_z_eq_mul,
    Matrix.one_mul]

/-- C4, as stated, fails: after one press of the key S on the scene that `init`
sets up (scale 1.1, all angles 0), the matrix that `display` leaves on its stack
is not the identity it started with. -/
theorem display_final_matrix_ne_identity :
    ∃ f, display GLM.taylor (keyCallback (init Scene.zero) (chr 'S') GLFW_PRESS).1
        Uniforms.zero = some f ∧ f.model ≠ [1] := by
  refine ⟨_, display_run _ _ _, ?_⟩
  intro h
  have h00 := congrFun (congrFun (List.cons.inj h).1 0) 0
  rw [globalModel_one] at h00
  simp [keyCallback, chr, init, Scene.zero, GLFW_PRESS, GLFW_KEY_ESCAPE,
    Scene.set_model_scale, matS, matRx, matRy, matRz, Matrix.mul_apply, Fin.sum_univ_four,
    GLM.taylor, radians, Matrix.vecHead, Matrix.vecTail] at h00

/-- C4, amended: for every scene, when `display` finishes, the single matrix left
on the stack is the initial identity post-multiplied by the global scale and
rotations of lines 224-227: S(model_scale) * Rx(-angle_x) * Ry(-angle_y) *
Rz(-angle_z), with the angles as they were when the frame started. -/
theorem display_final_matrix (G : GLM) (sc : Scene) (gl : Uniforms) :
    ∃ f, display G sc gl = some f ∧
      f.model =
        [(1 : Mat4) * matS ⟨sc.model_scale, sc.model_scale, sc.model_scale⟩ *
          matRx G (-(radians G sc.angle_x)) * matRy G (-(radians G sc.angle_y)) *
          matRz G (-(radians G sc.angle_z))] := by
  refine ⟨_, display_run G sc gl, ?_⟩
  show [globalModel G sc 1] = _
  rw [globalModel_one, Matrix.one_mul]

/-! ## Motor spin, light sphere and standoffs -/

/-- The draw call of the bell of motor `i` among the draw calls of a frame. -/
theorem frameCalls_bell (G : GLM) (sc : Scene) (gl : Uniforms) (i : Fin 4) :
    ((frameCalls G sc gl).filter (fun call => decide (call.part = Part.bell i))).map
      (fun call => call.uniforms.model) =
      [bellModel G (spinModel G
        (motorModel G (translate (globalModel G sc 1) ⟨sc.x, sc.y, sc.z⟩) i) i
        (motorAngleAt sc i))] := by
  fin_cases i <;> rfl

/-- The draw calls of the struts of motor `i` among the draw calls of a frame. -/
theorem frameCalls_strut (G : GLM) (sc : Scene) (gl : Uniforms) (i : Fin 4) (j : Fin 3)
    (first : Bool) :
    ((frameCalls G sc gl).filter
        (fun call => decide (call.part = Part.strut i j first))).map
      (fun call => call.uniforms.model) =
      [scale (translate (rotate G (translate (spinModel G
          (motorModel G (translate (globalModel G sc 1) ⟨sc.x, sc.y, sc.z⟩) i) i
          (motorAngleAt sc i)) ⟨0, 42 / 1000, 0⟩) (-(radians G (120 * ((j : Nat) : ℚ))))
          ⟨0, 1, 0⟩) ⟨if first then 15 / 1000 else -(15 / 1000), 0, 0⟩) motorStrutsScale] := by
  fin_cases i <;> fin_cases j <;> cases first <;> rfl

/-- The spin matrix is the motor matrix times the rotation about y by the spin
angle. -/
theorem spinMatrix_eq (G : GLM) (sc : Scene) (i : Nat) :
    spinMatrix G sc i = motorMatrix G sc i * matRy G (spinAngle G sc i) := rfl

/-- The draw call of the light sphere among the draw calls of a frame. -/
theorem frameCalls_light (G : GLM) (sc : Scene) (gl : Uniforms) :
    ((frameCalls G sc gl).filter (fun call => decide (call.part = Part.light))).map
      (fun call => call.uniforms.model) = [lightModel sc 1] := rfl

/-- The emit mode of every draw call of a frame: 1 for the light sphere, 0 for
the others. -/
theorem frameCalls_emitMode (G : GLM) (sc : Scene) (gl : Uniforms) :
    (frameCalls G sc gl).all
      (fun call => decide (call.uniforms.emitMode = if call.part = Part.light then 1 else 0))
      = true := rfl

/-- The counter when `display` returns is the start value plus 4. -/
theorem frameScene_motorAngle (sc : Scene) :
    (frameScene sc).motorAngle = sc.motorAngle + 4 := by
  show sc.motorAngle + 1 + 1 + 1 + 1 = sc.motorAngle + 4
  ring

/-- The spin angle of motor `i` changes from one frame to the next by 4 degrees,
negated for the even motors. -/
theorem spinAngle_frameScene (G : GLM) (sc : Scene) (i : Nat) :
    spinAngle G (frameScene sc) i - spinAngle G sc i =
      if i % 2 = 0 then -(radians G 4) else radians G 4 := by
  unfold spinAngle
  rw [frameScene_motorAngle]
  unfold radians
  split_ifs <;> ring

/-- The model matrix uploaded for the bell of motor `i`. -/
theorem display_bell_model (G : GLM) (sc : Scene) (gl : Uniforms) (i : Fin 4) (f : Frame)
    (hf : display G sc gl = some f) :
      f.modelsOf (Part.bell i) =
        [spinMatrix G sc i * matS motorBellScale * matRx G (-(radians G 90))] := by
  rw [display_run] at hf
  cases hf
  refine (frameCalls_bell G sc gl i).trans ?_
  rw [translate_globalModel, motorModel_body, spinModel_motor]
  simp only [bellModel, scale_eq_mul, rotate_x_eq_mul]

/-- The model matrix uploaded for a strut of motor `i`. -/
theorem display_strut_model (G : GLM) (sc : Scene) (gl : Uniforms) (i : Fin 4) (j : Fin 3)
    (first : Bool) (f : Frame) (hf : display G sc gl = some f) :
      f.modelsOf (Part.strut i j first) =
        [spinMatrix G sc i * matT ⟨0, 42 / 1000, 0⟩ *
          matRy G (-(radians G (120 * ((j : Nat) : ℚ)))) *
          matT ⟨if first then 15 / 1000 else -(15 / 1000), 0, 0⟩ * matS motorStrutsScale] := by
  rw [display_run] at hf
  cases hf
  refine (frameCalls_strut G sc gl i j first).trans ?_
  rw [translate_globalModel, motorModel_body, spinModel_motor]
  simp only [translate_eq_mul, scale_eq_mul, rotate_y_eq_mul]

/-- C11: in every call of `display` the counter `motorAngle` is read and then
incremented by 1 once per motor, so motor `i` reads the start value plus `i` and
the counter ends 4 larger; the spin rotation about y of motor `i` (applied to its
struts, shaft and bell) uses the negated value for the motors 0 and 2 and the
value itself for the motors 1 and 3; from one frame to the next the spin angle of
an even motor changes by minus 4 degrees and that of an odd motor by plus 4
degrees. -/
theorem display_motor_spin (G : GLM) (sc : Scene) (gl : Uniforms) :
    ∃ f, display G sc gl = some f ∧
      f.sc.motorAngle = sc.motorAngle + 4 ∧
      (spinAngle G sc 0 = -(radians G sc.motorAngle) ∧
       spinAngle G sc 1 = radians G (sc.motorAngle + 1) ∧
       spinAngle G sc 2 = -(radians G (sc.motorAngle + 2)) ∧
       spinAngle G sc 3 = radians G (sc.motorAngle + 3)) ∧
      (∀ i : Fin 4,
        f.modelsOf (Part.shaft i) =
          [motorMatrix G sc i * matRy G (spinAngle G sc i) * matT ⟨0, 6 / 100, 0⟩ *
            matS motorShaftScale * matRx G (-(radians G 90))] ∧
        f.modelsOf (Part.bell i) =
          [motorMatrix G sc i * matRy G (spinAngle G sc i) * matS motorBellScale *
            matRx G (-(radians G 90))] ∧
        ∀ (j : Fin 3) (first : Bool),
          f.modelsOf (Part.strut i j first) =
            [motorMatrix G sc i * matRy G (spinAngle G sc i) * matT ⟨0, 42 / 1000, 0⟩ *
              matRy G (-(radians G (120 * ((j : Nat) : ℚ)))) *
              matT ⟨if first then 15 / 1000 else -(15 / 1000), 0, 0⟩ *
              matS motorStrutsScale]) ∧
      (spinAngle G f.sc 0 - spinAngle G sc 0 = -(radians G 4) ∧
       spinAngle G f.sc 1 - spinAngle G sc 1 = radians G 4 ∧
       spinAngle G f.sc 2 - spinAngle G sc 2 = -(radians G 4) ∧
       spinAngle G f.sc 3 - spinAngle G sc 3 = radians G 4) ∧
      radians G 4 = 4 * G.degToRad := by
  refine ⟨_, display_run G sc gl, frameScene_motorAngle sc, ⟨?_, ?_, ?_, ?_⟩,
    fun i => ⟨?_, ?_, fun j first => ?_⟩,
    ⟨spinAngle_frameScene G sc 0, spinAngle_frameScene G sc 1, spinAngle_frameScene G sc 2,
      spinAngle_frameScene G sc 3⟩, rfl⟩
  · simp [spinAngle]
  · simp [spinAngle]
  · simp [spinAngle]
  · simp [spinAngle]
  · rw [← spinMatrix_eq]
    exact display_shaft_model G sc gl i _ (display_run G sc gl)
  · rw [← spinMatrix_eq]
    exact display_bell_model G sc gl i _ (display_run G sc gl)
  · rw [← spinMatrix_eq]
    exact display_strut_model G sc gl i j first _ (display_run G sc gl)

/-- The model matrix of the light sphere, as a product. -/
theorem lightModel_one (sc : Scene) :
    lightModel sc 1 =
      matT ⟨sc.light_x, sc.light_y, sc.light_z⟩ * matS ⟨5 / 100, 5 / 100, 5 / 100⟩ := by
  simp only [lightModel, translate_eq_mul, scale_eq_mul, Matrix.one_mul]

/-- C12: for every scene, `display` issues one draw call for the light sphere,
with the model matrix T(light_x,light_y,light_z) * S(0.05,0.05,0.05), whatever the
scale, the rotation angles and the translation of the body are; the emit mode is 1
for that draw call and 0 for every other draw call of the frame. -/
theorem display_light_model (G : GLM) (sc : Scene) (gl : Uniforms)
    (scale_ ax ay az x y z : ℚ) :
    ∃ f, display G
        { sc with model_scale := scale_, angle_x := ax, angle_y := ay, angle_z := az,
                  x := x, y := y, z := z } gl = some f ∧
      f.modelsOf Part.light =
        [matT ⟨sc.light_x, sc.light_y, sc.light_z⟩ * matS ⟨5 / 100, 5 / 100, 5 / 100⟩] ∧
      ∀ call ∈ f.calls,
        call.uniforms.emitMode = if call.part = Part.light then 1 else 0 := by
  refine ⟨_, display_run G _ gl, (frameCalls_light G _ gl).trans ?_, ?_⟩
  · rw [lightModel_one]
  · intro call hcall
    have h := List.all_eq_true.mp (frameCalls_emitMode G _ gl) call hcall
    exact of_decide_eq_true h

/-- C13, as stated, fails: the scene that `init` sets up and the same scene with
`model_scale` 2 differ only in `model_scale`, and the model matrix uploaded for
the first standoff differs between them. -/
theorem display_standoff_depends_on_scale :
    ∃ f1 f2, display GLM.taylor (init Scene.zero) Uniforms.zero = some f1 ∧
      display GLM.taylor { init Scene.zero with model_scale := 2 } Uniforms.zero = some f2 ∧
      f1.modelsOf (Part.standoff 0) ≠ f2.modelsOf (Part.standoff 0) := by
  refine ⟨_, _, display_run _ _ _, display_run _ _ _, ?_⟩
  have h1 := display_standoff_model GLM.taylor (init Scene.zero) Uniforms.zero 0 _
    (display_run _ _ _)
  have h2 := display_standoff_model GLM.taylor { init Scene.zero with model_scale := 2 }
    Uniforms.zero 0 _ (display_run _ _ _)
  intro h
  have h00 := congrFun (congrFun (List.cons.inj ((h1.symm.trans h).trans h2)).1 0) 0
  simp [bodyMatrix, matS, matT, matRx, matRy, matRz, Matrix.mul_apply, Fin.sum_univ_four,
    init, GLM.taylor, radians, standoffOffset, standoffScale, Matrix.vecHead,
    Matrix.vecTail] at h00

/-- C13, amended: for every two scenes that differ only in `model_scale` and in
the body rotation angles, the model matrix uploaded for each of the eight
standoffs is the body matrix of its scene, S(model_scale) * Rx(-angle_x) *
Ry(-angle_y) * Rz(-angle_z) * T(x,y,z), times a local transform that is the same
in both: the standoffs sit at fixed offsets in the frame of the drone and follow
its scale and rotation. -/
theorem display_standoff_follows_body (G : GLM) (sc : Scene) (gl1 gl2 : Uniforms)
    (scale_ ax ay az : ℚ) :
    ∃ f1 f2, display G sc gl1 = some f1 ∧
      display G { sc with model_scale := scale_, angle_x := ax, angle_y := ay,
                          angle_z := az } gl2 = some f2 ∧
      ∀ k : Fin 8,
        f1.modelsOf (Part.standoff k) =
          [matS ⟨sc.model_scale, sc.model_scale, sc.model_scale⟩ *
            matRx G (-(radians G sc.angle_x)) * matRy G (-(radians G sc.angle_y)) *
            matRz G (-(radians G sc.angle_z)) * matT ⟨sc.x, sc.y, sc.z⟩ *
            standoffLocal G k] ∧
        f2.modelsOf (Part.standoff k) =
          [matS ⟨scale_, scale_, scale_⟩ * matRx G (-(radians G ax)) *
            matRy G (-(radians G ay)) * matRz G (-(radians G az)) * matT ⟨sc.x, sc.y, sc.z⟩ *
            standoffLocal G k] := by
  refine ⟨_, _, display_run _ _ _, display_run _ _ _, fun k => ⟨?_, ?_⟩⟩
  · rw [display_standoff_model G sc gl1 k _ (display_run _ _ _)]
    simp only [standoffLocal, bodyMatrix, Matrix.mul_assoc]
  · rw [display_standoff_model G _ gl2 k _ (display_run _ _ _)]
    simp only [standoffLocal, bodyMatrix, Matrix.mul_assoc]

end Drone
